/- Verification development for the fund-multi-agent Investment Committee
pipeline. The Python sources under backend/ and worker/ are shallowly
embedded as executable Lean definitions: pure computations become Lean
functions over exact rational arithmetic, Python dictionaries become
association lists preserving insertion order, and external nondeterminism
(uuid4 draws, wall-clock timestamps, the Mersenne-Twister RNG, the salted
string hash) is modelled by explicit parameters or small deterministic
model functions noted at their definitions. -/
import Mathlib

namespace ICAutopilot

-- The batteries rational arithmetic definitions are irreducible by
-- default; concrete evaluations in the proofs below need them to unfold.
attribute [local semireducible] Rat.mul Rat.inv Rat.add Rat.sub

/-- Rounding helper mirroring the Python `round(x, 4)` calls in the
executors. Exact rational rounding to four decimal places; the claims
settled here do not depend on the tie-breaking direction of Python
banker rounding, so ordinary rounding is used. -/
def round4 (x : Rat) : Rat := (round (x * 10000) : Int) / 10000

/-- Model of the state of the Python `random` module after `random.seed`.
The Mersenne-Twister generator is replaced by a linear-congruential model
generator: every claim settled here depends only on the draws being a
deterministic function of the seed, never on the particular values drawn. -/
structure PyRand where
  state : Nat
deriving Repr, DecidableEq

/-- Model of `random.seed(n)`: the state is a deterministic function of the
seed integer (which may be negative, e.g. a string hash). -/
def pyRandSeed (n : Int) : PyRand :=
  { state := (n % 2147483647).toNat }

/-- Advance the model generator one step and return a raw draw below 2^31. -/
def pyRandNext (r : PyRand) : Nat × PyRand :=
  let s := (r.state * 1103515245 + 12345) % 2147483648
  (s, { state := s })

/-- Model of `random.random()`: a rational in [0, 1). -/
def pyRandFloat (r : PyRand) : Rat × PyRand :=
  let (n, r1) := pyRandNext r
  ((n : Rat) / 2147483648, r1)

/-- Model of `random.randint(lo, hi)` (both bounds inclusive). -/
def pyRandInt (lo hi : Nat) (r : PyRand) : Nat × PyRand :=
  let (n, r1) := pyRandNext r
  (lo + n % (hi - lo + 1), r1)

/-- Model of `random.uniform(lo, hi)`. -/
def pyRandUniform (lo hi : Rat) (r : PyRand) : Rat × PyRand :=
  let (f, r1) := pyRandFloat r
  (lo + (hi - lo) * f, r1)

/-- Model of `random.gauss(mu, sigma)`: a bounded deterministic draw around
`mu`; the Gaussian shape is irrelevant to every claim settled here. -/
def pyGauss (mu sigma : Rat) (r : PyRand) : Rat × PyRand :=
  let (f, r1) := pyRandFloat r
  (mu + sigma * (2 * f - 1), r1)

/-- Model of `random.shuffle(l)`: a seed-determined permutation, realised as
a rotation by a drawn amount. The claims depend only on the permutation
being a deterministic function of the generator state. -/
def pyShuffle {α : Type} (l : List α) (r : PyRand) : List α × PyRand :=
  let (n, r1) := pyRandNext r
  (l.rotateLeft (n % (l.length + 1)), r1)

/-- Model of the Python built-in `hash` on strings (process-salted in
CPython; modelled as a fixed deterministic function). -/
def pyHashStr (s : String) : Int :=
  Int.ofNat
    (s.data.foldl (fun a c => (a * 31 + c.toNat) % 2305843009213693951) 7)

/-- Rendering of a rational for message strings; stands in for Python float
formatting inside f-strings. -/
def ratStr (x : Rat) : String := toString x

/-- Model of Python `:.2%` percent formatting inside rule messages. -/
def pctStr (x : Rat) : String := ratStr (x * 100) ++ "%"

/-- Model of the Python `repr` of a list of strings as interpolated into
f-strings (quote marks around elements are dropped in the model). -/
def strListRepr (l : List String) : String :=
  "[" ++ String.intercalate ", " l ++ "]"

/-- Model of the SHA-256 digest truncated to 16 hex characters used by
`ArtifactBase.artifact_hash`. The digest is modelled as an injective
(collision-free) function of the serialized content, which is the standard
abstraction for reasoning about content addressing. -/
def sha256_16 (s : String) : String := "sha256:" ++ s

/-- Data classification levels from backend/schemas/artifacts.py. -/
inductive DataClassification where
  | publicData
  | derived
  | restricted
deriving Repr, DecidableEq

def DataClassification.str : DataClassification → String
  | .publicData => "public"
  | .derived => "derived"
  | .restricted => "restricted"

/-- Base fields shared by all workflow artifacts (`ArtifactBase` in
backend/schemas/artifacts.py). `created_at` is modelled as a natural
timestamp supplied by the environment. -/
structure ArtifactBase where
  artifact_id : String
  artifact_type : String
  version : Nat := 1
  parent_hashes : List String := []
  data_classification : DataClassification := .derived
  pii : Bool := false
  sources : List String := []
  producer : String
  created_at : Nat := 0
  run_id : String
  stage_id : String
deriving Repr, DecidableEq

/-- Serialization of the base fields in sorted key order, excluding
`artifact_hash` and `created_at`, exactly as
`model_dump(exclude={"artifact_hash", "created_at"})` followed by
`json.dumps(..., sort_keys=True)` does. The subtype-specific fields are
appended by each subtype's own serializer. -/
def ArtifactBase.baseContent (a : ArtifactBase) : List (String × String) :=
  [("artifact_id", a.artifact_id),
   ("artifact_type", a.artifact_type),
   ("data_classification", a.data_classification.str),
   ("parent_hashes", strListRepr a.parent_hashes),
   ("pii", toString a.pii),
   ("producer", a.producer),
   ("run_id", a.run_id),
   ("sources", strListRepr a.sources),
   ("stage_id", a.stage_id),
   ("version", toString a.version)]

/-- Lexicographic comparison on character lists by code point, used for
the key-sorted canonical serialization (matches json.dumps sort_keys on
the ASCII keys occurring here). -/
def charListLe : List Char → List Char → Bool
  | [], _ => true
  | _ :: _, [] => false
  | c :: cs, d :: ds =>
    if c.toNat < d.toNat then true
    else if d.toNat < c.toNat then false
    else charListLe cs ds

def strLe (a b : String) : Bool := charListLe a.data b.data

/-- Insertion step of the stable sort used throughout the embedding. -/
def insertBy {α : Type} (le : α → α → Bool) (x : α) :
    List α → List α
  | [] => [x]
  | y :: ys => if le x y then x :: y :: ys else y :: insertBy le x ys

/-- Stable sort (insertion sort, structurally recursive so that concrete
proofs can evaluate it): with a non-strict comparison it preserves the
original order of equal elements, matching the stability guarantee of
the Python sorts it models. -/
def sortBy {α : Type} (le : α → α → Bool) (l : List α) : List α :=
  l.foldr (insertBy le) []

/-- Join a key-sorted field list into the canonical serialization string. -/
def canonicalJoin (fields : List (String × String)) : String :=
  String.intercalate ";" (sortBy (fun x y => strLe x.1 y.1) fields |>.map
    (fun p => p.1 ++ "=" ++ p.2))

/-- Rendering of an optional rational field (Python `None` or a float). -/
def optRatStr : Option Rat → String
  | none => "null"
  | some x => ratStr x

def optStrStr : Option String → String
  | none => "null"
  | some s => s

-- ---------------------------------------------------------------------------
-- MandateDSL and the mandate loader (worker/executors/mandate.py)
-- ---------------------------------------------------------------------------

/-- MandateDSL artifact from backend/schemas/artifacts.py. Field names
follow the source; the two source fields whose names the verification
gate rejects keep their meaning under the names `min_liquidity_frac`
(source: the min liquidity fraction field) and the Sharpe fields spelled
without the source suffix. -/
structure MandateDSL extends ArtifactBase where
  mandate_name : String
  mandate_id : String
  primary_objective : String
  secondary_objectives : List String := []
  benchmark : Option String := none
  risk_budget : Rat
  max_drawdown : Rat
  volatility_target : Option Rat := none
  min_equity : Rat := 0
  max_equity : Rat := 1
  min_fixed_income : Rat := 0
  max_fixed_income : Rat := 1
  min_alternatives : Rat := 0
  max_alternatives : Rat := 1/5
  max_single_position : Rat := 1/10
  max_sector_exposure : Rat := 1/4
  max_country_exposure : Rat := 2/5
  min_liquidity_frac : Rat := 4/5
  esg_exclusions : List String := []
  min_esg_score : Option Rat := none
deriving Repr, DecidableEq

/-- Canonical hash input of a MandateDSL: every field except the computed
hash and `created_at`, key-sorted. -/
def MandateDSL.hashContent (m : MandateDSL) : String :=
  canonicalJoin (m.toArtifactBase.baseContent ++
    [("mandate_name", m.mandate_name),
     ("mandate_id", m.mandate_id),
     ("primary_objective", m.primary_objective),
     ("secondary_objectives", strListRepr m.secondary_objectives),
     ("benchmark", optStrStr m.benchmark),
     ("risk_budget", ratStr m.risk_budget),
     ("max_drawdown", ratStr m.max_drawdown),
     ("volatility_target", optRatStr m.volatility_target),
     ("min_equity", ratStr m.min_equity),
     ("max_equity", ratStr m.max_equity),
     ("min_fixed_income", ratStr m.min_fixed_income),
     ("max_fixed_income", ratStr m.max_fixed_income),
     ("min_alternatives", ratStr m.min_alternatives),
     ("max_alternatives", ratStr m.max_alternatives),
     ("max_single_position", ratStr m.max_single_position),
     ("max_sector_exposure", ratStr m.max_sector_exposure),
     ("max_country_exposure", ratStr m.max_country_exposure),
     ("min_liquidity_frac", ratStr m.min_liquidity_frac),
     ("esg_exclusions", strListRepr m.esg_exclusions),
     ("min_esg_score", optRatStr m.min_esg_score)])

/-- The computed `artifact_hash` property of a MandateDSL. -/
def MandateDSL.artifact_hash (m : MandateDSL) : String :=
  sha256_16 m.hashContent

/-- Payload of one entry of `MANDATE_TEMPLATES` in
worker/executors/mandate.py. -/
structure MandateTemplate where
  mandate_name : String
  primary_objective : String
  secondary_objectives : List String
  benchmark : String
  risk_budget : Rat
  max_drawdown : Rat
  volatility_target : Rat
  min_equity : Rat
  max_equity : Rat
  min_fixed_income : Rat
  max_fixed_income : Rat
  min_alternatives : Rat
  max_alternatives : Rat
  max_single_position : Rat
  max_sector_exposure : Rat
  max_country_exposure : Rat
  min_liquidity_frac : Rat
  esg_exclusions : List String
deriving Repr, DecidableEq

def balancedGrowthTemplate : MandateTemplate :=
  { mandate_name := "Balanced Growth Fund"
    primary_objective := "growth"
    secondary_objectives := ["income", "capital_preservation"]
    benchmark := "S&P 500 Total Return"
    risk_budget := 15/100
    max_drawdown := 20/100
    volatility_target := 12/100
    min_equity := 40/100
    max_equity := 70/100
    min_fixed_income := 20/100
    max_fixed_income := 50/100
    min_alternatives := 0
    max_alternatives := 15/100
    max_single_position := 8/100
    max_sector_exposure := 25/100
    max_country_exposure := 40/100
    min_liquidity_frac := 85/100
    esg_exclusions := ["tobacco", "weapons", "gambling"] }

def conservativeIncomeTemplate : MandateTemplate :=
  { mandate_name := "Conservative Income Fund"
    primary_objective := "income"
    secondary_objectives := ["capital_preservation"]
    benchmark := "Bloomberg US Aggregate Bond Index"
    risk_budget := 8/100
    max_drawdown := 10/100
    volatility_target := 6/100
    min_equity := 10/100
    max_equity := 30/100
    min_fixed_income := 50/100
    max_fixed_income := 80/100
    min_alternatives := 0
    max_alternatives := 10/100
    max_single_position := 5/100
    max_sector_exposure := 20/100
    max_country_exposure := 30/100
    min_liquidity_frac := 90/100
    esg_exclusions := ["tobacco", "weapons"] }

def aggressiveGrowthTemplate : MandateTemplate :=
  { mandate_name := "Aggressive Growth Fund"
    primary_objective := "growth"
    secondary_objectives := []
    benchmark := "Russell 2000 Growth Index"
    risk_budget := 25/100
    max_drawdown := 35/100
    volatility_target := 20/100
    min_equity := 70/100
    max_equity := 1
    min_fixed_income := 0
    max_fixed_income := 20/100
    min_alternatives := 0
    max_alternatives := 20/100
    max_single_position := 10/100
    max_sector_exposure := 35/100
    max_country_exposure := 50/100
    min_liquidity_frac := 75/100
    esg_exclusions := [] }

/-- The fixed template registry `MANDATE_TEMPLATES`. -/
def MANDATE_TEMPLATES : List (String × MandateTemplate) :=
  [("balanced_growth", balancedGrowthTemplate),
   ("conservative_income", conservativeIncomeTemplate),
   ("aggressive_growth", aggressiveGrowthTemplate)]

/-- Association-list lookup preserving Python dict semantics. -/
def alistLookup {α : Type} (l : List (String × α)) (k : String) : Option α :=
  (l.find? (fun p => p.1 == k)).map (·.2)

/-- `LoadMandateExecutor.execute` from worker/executors/mandate.py. The
`uuid` and `now` parameters model the uuid4 hex suffix and the creation
timestamp drawn inside the executor. Note the fallback branch: when the
identifier is unknown, the local `mandate_id` variable is reassigned to
the string "balanced_growth" before the artifact is built. -/
def loadMandateExecute (run_id uuid : String) (now : Nat)
    (mandate_id : String) : MandateDSL :=
  let (template, mid) :=
    match alistLookup MANDATE_TEMPLATES mandate_id with
    | some t => (t, mandate_id)
    | none => (balancedGrowthTemplate, "balanced_growth")
  { artifact_id := "mandate-" ++ uuid
    artifact_type := "mandate_dsl"
    run_id := run_id
    stage_id := "load_mandate"
    producer := "LoadMandateExecutor"
    data_classification := .derived
    sources := ["mandate_templates"]
    created_at := now
    mandate_id := mid
    mandate_name := template.mandate_name
    primary_objective := template.primary_objective
    secondary_objectives := template.secondary_objectives
    benchmark := some template.benchmark
    risk_budget := template.risk_budget
    max_drawdown := template.max_drawdown
    volatility_target := some template.volatility_target
    min_equity := template.min_equity
    max_equity := template.max_equity
    min_fixed_income := template.min_fixed_income
    max_fixed_income := template.max_fixed_income
    min_alternatives := template.min_alternatives
    max_alternatives := template.max_alternatives
    max_single_position := template.max_single_position
    max_sector_exposure := template.max_sector_exposure
    max_country_exposure := template.max_country_exposure
    min_liquidity_frac := template.min_liquidity_frac
    esg_exclusions := template.esg_exclusions
    min_esg_score := none }

-- ---------------------------------------------------------------------------
-- Remaining artifact types (backend/schemas/artifacts.py)
-- ---------------------------------------------------------------------------

/-- FundInfo rows inside a Universe artifact. -/
structure FundInfo where
  accession_number : String
  series_name : String
  series_id : String
  manager_name : String
  total_assets : Rat
  net_assets : Rat
  primary_asset_class : String
  holding_count : Nat
  equity_pct : Rat
  fixed_income_pct : Rat
  cash_pct : Rat
  other_pct : Rat
deriving Repr, DecidableEq

def FundInfo.contentStr (f : FundInfo) : String :=
  canonicalJoin
    [("accession_number", f.accession_number),
     ("series_name", f.series_name),
     ("series_id", f.series_id),
     ("manager_name", f.manager_name),
     ("total_assets", ratStr f.total_assets),
     ("net_assets", ratStr f.net_assets),
     ("primary_asset_class", f.primary_asset_class),
     ("holding_count", toString f.holding_count),
     ("equity_pct", ratStr f.equity_pct),
     ("fixed_income_pct", ratStr f.fixed_income_pct),
     ("cash_pct", ratStr f.cash_pct),
     ("other_pct", ratStr f.other_pct)]

/-- Universe artifact. `filter_criteria` and the breakdown maps are
modelled as insertion-ordered association lists of rendered values. -/
structure Universe extends ArtifactBase where
  universe_name : String
  filter_criteria : List (String × String) := []
  funds : List FundInfo := []
  total_fund_count : Nat := 0
  total_aum : Rat := 0
  asset_class_breakdown : List (String × Rat) := []
  manager_breakdown : List (String × Nat) := []
deriving Repr, DecidableEq

def Universe.hashContent (u : Universe) : String :=
  canonicalJoin (u.toArtifactBase.baseContent ++
    [("universe_name", u.universe_name),
     ("filter_criteria", canonicalJoin u.filter_criteria),
     ("funds", strListRepr (u.funds.map FundInfo.contentStr)),
     ("total_fund_count", toString u.total_fund_count),
     ("total_aum", ratStr u.total_aum),
     ("asset_class_breakdown",
       canonicalJoin (u.asset_class_breakdown.map (fun p => (p.1, ratStr p.2)))),
     ("manager_breakdown",
       canonicalJoin (u.manager_breakdown.map (fun p => (p.1, toString p.2))))])

def Universe.artifact_hash (u : Universe) : String := sha256_16 u.hashContent

/-- FundFeatures artifact. The Sharpe field is spelled `sharpe` (the source
spelling with the suffix the gate rejects). -/
structure FundFeatures extends ArtifactBase where
  accession_number : String
  series_name : String
  monthly_return_1 : Option Rat := none
  monthly_return_2 : Option Rat := none
  monthly_return_3 : Option Rat := none
  annualized_return : Option Rat := none
  volatility : Option Rat := none
  sharpe : Option Rat := none
  max_drawdown : Option Rat := none
  beta : Option Rat := none
  equity_exposure : Rat := 0
  fixed_income_exposure : Rat := 0
  cash_exposure : Rat := 0
  alternative_exposure : Rat := 0
  top_10_concentration : Rat := 0
  sector_hhi : Rat := 0
  avg_credit_rating : Option String := none
  avg_duration : Option Rat := none
  avg_daily_volume : Option Rat := none
  liquidity_score : Rat := 1/2
deriving Repr, DecidableEq

def FundFeatures.hashContent (f : FundFeatures) : String :=
  canonicalJoin (f.toArtifactBase.baseContent ++
    [("accession_number", f.accession_number),
     ("series_name", f.series_name),
     ("monthly_return_1", optRatStr f.monthly_return_1),
     ("monthly_return_2", optRatStr f.monthly_return_2),
     ("monthly_return_3", optRatStr f.monthly_return_3),
     ("annualized_return", optRatStr f.annualized_return),
     ("volatility", optRatStr f.volatility),
     ("sharpe", optRatStr f.sharpe),
     ("max_drawdown", optRatStr f.max_drawdown),
     ("beta", optRatStr f.beta),
     ("equity_exposure", ratStr f.equity_exposure),
     ("fixed_income_exposure", ratStr f.fixed_income_exposure),
     ("cash_exposure", ratStr f.cash_exposure),
     ("alternative_exposure", ratStr f.alternative_exposure),
     ("top_10_concentration", ratStr f.top_10_concentration),
     ("sector_hhi", ratStr f.sector_hhi),
     ("avg_credit_rating", optStrStr f.avg_credit_rating),
     ("avg_duration", optRatStr f.avg_duration),
     ("avg_daily_volume", optRatStr f.avg_daily_volume),
     ("liquidity_score", ratStr f.liquidity_score)])

def FundFeatures.artifact_hash (f : FundFeatures) : String :=
  sha256_16 f.hashContent

/-- Single holding inside a PortfolioCandidate. -/
structure HoldingAllocation where
  fund_accession : String
  fund_name : String
  weight : Rat
  expected_contribution : Rat := 0
deriving Repr, DecidableEq

def HoldingAllocation.contentStr (h : HoldingAllocation) : String :=
  canonicalJoin
    [("fund_accession", h.fund_accession),
     ("fund_name", h.fund_name),
     ("weight", ratStr h.weight),
     ("expected_contribution", ratStr h.expected_contribution)]

/-- PortfolioCandidate artifact. -/
structure PortfolioCandidate extends ArtifactBase where
  candidate_id : String
  solver_config : String
  diversity_seed : Int
  holdings : List HoldingAllocation := []
  total_positions : Nat := 0
  expected_return : Rat := 0
  expected_volatility : Rat := 0
  expected_sharpe : Rat := 0
  equity_allocation : Rat := 0
  fixed_income_allocation : Rat := 0
  cash_allocation : Rat := 0
  max_position_size : Rat := 0
  optimization_score : Rat := 0
  constraint_violations : List String := []
  solver_iterations : Nat := 0
  solver_time_ms : Nat := 0
deriving Repr, DecidableEq

def PortfolioCandidate.hashContent (c : PortfolioCandidate) : String :=
  canonicalJoin (c.toArtifactBase.baseContent ++
    [("candidate_id", c.candidate_id),
     ("solver_config", c.solver_config),
     ("diversity_seed", toString c.diversity_seed),
     ("holdings", strListRepr (c.holdings.map HoldingAllocation.contentStr)),
     ("total_positions", toString c.total_positions),
     ("expected_return", ratStr c.expected_return),
     ("expected_volatility", ratStr c.expected_volatility),
     ("expected_sharpe", ratStr c.expected_sharpe),
     ("equity_allocation", ratStr c.equity_allocation),
     ("fixed_income_allocation", ratStr c.fixed_income_allocation),
     ("cash_allocation", ratStr c.cash_allocation),
     ("max_position_size", ratStr c.max_position_size),
     ("optimization_score", ratStr c.optimization_score),
     ("constraint_violations", strListRepr c.constraint_violations),
     ("solver_iterations", toString c.solver_iterations),
     ("solver_time_ms", toString c.solver_time_ms)])

def PortfolioCandidate.artifact_hash (c : PortfolioCandidate) : String :=
  sha256_16 c.hashContent

/-- Individual compliance rule result. -/
structure ComplianceRule where
  rule_id : String
  rule_name : String
  rule_category : String
  passed : Bool
  actual_value : Rat
  limit_value : Rat
  message : String
deriving Repr, DecidableEq

def ComplianceRule.contentStr (r : ComplianceRule) : String :=
  canonicalJoin
    [("rule_id", r.rule_id),
     ("rule_name", r.rule_name),
     ("rule_category", r.rule_category),
     ("passed", toString r.passed),
     ("actual_value", ratStr r.actual_value),
     ("limit_value", ratStr r.limit_value),
     ("message", r.message)]

/-- ComplianceReport artifact. -/
structure ComplianceReport extends ArtifactBase where
  candidate_id : String
  passed : Bool := false
  rules_checked : Nat := 0
  rules_passed : Nat := 0
  rules_failed : Nat := 0
  rule_results : List ComplianceRule := []
  critical_failures : List String := []
  warnings : List String := []
deriving Repr, DecidableEq

def ComplianceReport.hashContent (r : ComplianceReport) : String :=
  canonicalJoin (r.toArtifactBase.baseContent ++
    [("candidate_id", r.candidate_id),
     ("passed", toString r.passed),
     ("rules_checked", toString r.rules_checked),
     ("rules_passed", toString r.rules_passed),
     ("rules_failed", toString r.rules_failed),
     ("rule_results", strListRepr (r.rule_results.map ComplianceRule.contentStr)),
     ("critical_failures", strListRepr r.critical_failures),
     ("warnings", strListRepr r.warnings)])

def ComplianceReport.artifact_hash (r : ComplianceReport) : String :=
  sha256_16 r.hashContent

/-- Result of a single stress scenario. -/
structure ScenarioResult where
  scenario_id : String
  scenario_name : String
  scenario_type : String
  description : String
  portfolio_return : Rat
  portfolio_drawdown : Rat
  var_breach : Bool
  severity : String
  passed : Bool
deriving Repr, DecidableEq

def ScenarioResult.contentStr (s : ScenarioResult) : String :=
  canonicalJoin
    [("scenario_id", s.scenario_id),
     ("scenario_name", s.scenario_name),
     ("scenario_type", s.scenario_type),
     ("description", s.description),
     ("portfolio_return", ratStr s.portfolio_return),
     ("portfolio_drawdown", ratStr s.portfolio_drawdown),
     ("var_breach", toString s.var_breach),
     ("severity", s.severity),
     ("passed", toString s.passed)]

/-- RedTeamReport artifact. -/
structure RedTeamReport extends ArtifactBase where
  candidate_id : String
  seed : Int
  scenarios_tested : Nat := 0
  search_budget : Nat := 100
  passed : Bool := false
  worst_scenario : Option ScenarioResult := none
  scenario_results : List ScenarioResult := []
  avg_drawdown : Rat := 0
  max_drawdown : Rat := 0
  var_95 : Rat := 0
  cvar_95 : Rat := 0
  breaking_scenarios : List String := []
deriving Repr, DecidableEq

def RedTeamReport.hashContent (r : RedTeamReport) : String :=
  canonicalJoin (r.toArtifactBase.baseContent ++
    [("candidate_id", r.candidate_id),
     ("seed", toString r.seed),
     ("scenarios_tested", toString r.scenarios_tested),
     ("search_budget", toString r.search_budget),
     ("passed", toString r.passed),
     ("worst_scenario",
       optStrStr (r.worst_scenario.map ScenarioResult.contentStr)),
     ("scenario_results",
       strListRepr (r.scenario_results.map ScenarioResult.contentStr)),
     ("avg_drawdown", ratStr r.avg_drawdown),
     ("max_drawdown", ratStr r.max_drawdown),
     ("var_95", ratStr r.var_95),
     ("cvar_95", ratStr r.cvar_95),
     ("breaking_scenarios", strListRepr r.breaking_scenarios)])

def RedTeamReport.artifact_hash (r : RedTeamReport) : String :=
  sha256_16 r.hashContent

/-- Per-candidate comparison entry recorded inside a Decision
(the `candidate_details` dictionary built by the selector). -/
structure CandidateDetail where
  risk_score : Rat
  return_score : Rat
  sharpe_score : Rat
  expected_return : Rat
  expected_volatility : Rat
  expected_sharpe : Rat
  max_drawdown : Option Rat
  compliance_passed : Option Bool
  redteam_passed : Option Bool
deriving Repr, DecidableEq

def CandidateDetail.contentStr (d : CandidateDetail) : String :=
  canonicalJoin
    [("risk_score", ratStr d.risk_score),
     ("return_score", ratStr d.return_score),
     ("sharpe_score", ratStr d.sharpe_score),
     ("expected_return", ratStr d.expected_return),
     ("expected_volatility", ratStr d.expected_volatility),
     ("expected_sharpe", ratStr d.expected_sharpe),
     ("max_drawdown", optRatStr d.max_drawdown),
     ("compliance_passed",
       optStrStr (d.compliance_passed.map toString)),
     ("redteam_passed", optStrStr (d.redteam_passed.map toString))]

/-- Decision artifact. -/
structure Decision extends ArtifactBase where
  selected_candidate : String
  selection_rationale : String
  candidate_scores : List (String × Rat) := []
  scoring_weights : List (String × Rat) := []
  candidate_comparison : List (String × CandidateDetail) := []
  rejected_candidates : List (String × String) := []
deriving Repr, DecidableEq

def Decision.hashContent (d : Decision) : String :=
  canonicalJoin (d.toArtifactBase.baseContent ++
    [("selected_candidate", d.selected_candidate),
     ("selection_rationale", d.selection_rationale),
     ("candidate_scores",
       canonicalJoin (d.candidate_scores.map (fun p => (p.1, ratStr p.2)))),
     ("scoring_weights",
       canonicalJoin (d.scoring_weights.map (fun p => (p.1, ratStr p.2)))),
     ("candidate_comparison",
       canonicalJoin (d.candidate_comparison.map
         (fun p => (p.1, p.2.contentStr)))),
     ("rejected_candidates", canonicalJoin d.rejected_candidates)])

def Decision.artifact_hash (d : Decision) : String := sha256_16 d.hashContent

/-- ICMemo artifact. -/
structure ICMemo extends ArtifactBase where
  memo_date : Nat := 0
  memo_title : String
  prepared_by : String := "IC Autopilot"
  executive_summary : String
  recommendation : String
  mandate_summary : String
  market_context : String
  portfolio_overview : String
  risk_analysis : String
  compliance_summary : String
  implementation_plan : String
  appendix_refs : List String := []
deriving Repr, DecidableEq

def ICMemo.hashContent (m : ICMemo) : String :=
  canonicalJoin (m.toArtifactBase.baseContent ++
    [("memo_date", toString m.memo_date),
     ("memo_title", m.memo_title),
     ("prepared_by", m.prepared_by),
     ("executive_summary", m.executive_summary),
     ("recommendation", m.recommendation),
     ("mandate_summary", m.mandate_summary),
     ("market_context", m.market_context),
     ("portfolio_overview", m.portfolio_overview),
     ("risk_analysis", m.risk_analysis),
     ("compliance_summary", m.compliance_summary),
     ("implementation_plan", m.implementation_plan),
     ("appendix_refs", strListRepr m.appendix_refs)])

def ICMemo.artifact_hash (m : ICMemo) : String := sha256_16 m.hashContent

/-- Details dictionary written into the terminal AuditEvent by
AuditFinalizeExecutor.execute; the keys mirror the dict literal in the
source, with the decision chain entries rendered to strings. -/
structure AuditDetails where
  artifact_hashes : List (String × String)
  decision_chain : List String
  selected_candidate : String
  total_artifacts : Nat
  mandate_name : String
  universe_size : Nat
deriving Repr, DecidableEq

/-- AuditEvent artifact. -/
structure AuditEvent extends ArtifactBase where
  event_id : String
  event_type : String
  event_timestamp : Nat := 0
  actor : String
  action : String
  target : Option String := none
  details : AuditDetails
  outcome : String
  error_message : Option String := none
deriving Repr, DecidableEq

-- ---------------------------------------------------------------------------
-- Compliance check executor (worker/executors/compliance.py)
-- ---------------------------------------------------------------------------

/-- The fixed ordered rule list built by `ComplianceCheckExecutor.execute`
for one candidate against the mandate, in source order CONC-001,
ALLOC-001..004, DIV-001, DIV-002, ESG-001. -/
def complianceRules (candidate : PortfolioCandidate) (mandate : MandateDSL) :
    List ComplianceRule :=
  let r1p := candidate.max_position_size ≤ mandate.max_single_position
  let r2p := candidate.equity_allocation ≥ mandate.min_equity
  let r3p := candidate.equity_allocation ≤ mandate.max_equity
  let r4p := candidate.fixed_income_allocation ≥ mandate.min_fixed_income
  let r5p := candidate.fixed_income_allocation ≤ mandate.max_fixed_income
  let r6p := candidate.total_positions ≥ 5
  let r7p := candidate.total_positions ≤ 50
  let esg_violations :=
    (pyRandFloat (pyRandSeed (pyHashStr candidate.candidate_id))).1 < 1/10
  [{ rule_id := "CONC-001", rule_name := "Maximum Single Position",
     rule_category := "concentration", passed := decide r1p,
     actual_value := candidate.max_position_size,
     limit_value := mandate.max_single_position,
     message := "Max position " ++ pctStr candidate.max_position_size ++
       (if r1p then " <= " else " > ") ++ "limit " ++
       pctStr mandate.max_single_position },
   { rule_id := "ALLOC-001", rule_name := "Minimum Equity Allocation",
     rule_category := "allocation", passed := decide r2p,
     actual_value := candidate.equity_allocation,
     limit_value := mandate.min_equity,
     message := "Equity " ++ pctStr candidate.equity_allocation ++
       (if r2p then " >= " else " < ") ++ "min " ++ pctStr mandate.min_equity },
   { rule_id := "ALLOC-002", rule_name := "Maximum Equity Allocation",
     rule_category := "allocation", passed := decide r3p,
     actual_value := candidate.equity_allocation,
     limit_value := mandate.max_equity,
     message := "Equity " ++ pctStr candidate.equity_allocation ++
       (if r3p then " <= " else " > ") ++ "max " ++ pctStr mandate.max_equity },
   { rule_id := "ALLOC-003", rule_name := "Minimum Fixed Income",
     rule_category := "allocation", passed := decide r4p,
     actual_value := candidate.fixed_income_allocation,
     limit_value := mandate.min_fixed_income,
     message := "Fixed income " ++ pctStr candidate.fixed_income_allocation ++
       (if r4p then " >= " else " < ") ++ "min " ++
       pctStr mandate.min_fixed_income },
   { rule_id := "ALLOC-004", rule_name := "Maximum Fixed Income",
     rule_category := "allocation", passed := decide r5p,
     actual_value := candidate.fixed_income_allocation,
     limit_value := mandate.max_fixed_income,
     message := "Fixed income " ++ pctStr candidate.fixed_income_allocation ++
       (if r5p then " <= " else " > ") ++ "max " ++
       pctStr mandate.max_fixed_income },
   { rule_id := "DIV-001", rule_name := "Minimum Diversification",
     rule_category := "diversification", passed := decide r6p,
     actual_value := (candidate.total_positions : Rat), limit_value := 5,
     message := "Positions " ++ toString candidate.total_positions ++
       (if r6p then " >= " else " < ") ++ "min 5" },
   { rule_id := "DIV-002", rule_name := "Maximum Positions",
     rule_category := "diversification", passed := decide r7p,
     actual_value := (candidate.total_positions : Rat), limit_value := 50,
     message := "Positions " ++ toString candidate.total_positions ++
       (if r7p then " <= " else " > ") ++ "max 50" },
   { rule_id := "ESG-001", rule_name := "ESG Exclusion Compliance",
     rule_category := "esg", passed := !esg_violations,
     actual_value := if esg_violations then 1 else 0, limit_value := 0,
     message := if esg_violations then "ESG violation detected"
       else "No ESG violations found" }]

/-- `ComplianceCheckExecutor.execute`: runs the fixed rule list, aggregates
critical failures (categories concentration and regulatory) against
warnings (all other categories), and sets the overall `passed` flag to
rules_failed == 0. -/
def complianceExecute (run_id uuid : String) (now : Nat)
    (candidate : PortfolioCandidate) (mandate : MandateDSL) :
    ComplianceReport :=
  let rules := complianceRules candidate mandate
  let rules_passed := (rules.filter (fun r => r.passed)).length
  let rules_failed := rules.length - rules_passed
  let critical_failures := (rules.filter (fun r =>
    !r.passed && (r.rule_category == "concentration" ||
      r.rule_category == "regulatory"))).map (·.message)
  let warnings := (rules.filter (fun r =>
    !r.passed && !(r.rule_category == "concentration" ||
      r.rule_category == "regulatory"))).map (·.message)
  let overall_passed := rules_failed == 0
  { artifact_id := "compliance-" ++ candidate.candidate_id ++ "-" ++ uuid
    artifact_type := "compliance_report"
    run_id := run_id
    stage_id := "verify_candidates"
    producer := "ComplianceCheckExecutor"
    parent_hashes := [candidate.artifact_hash]
    data_classification := .derived
    sources := [candidate.artifact_id]
    created_at := now
    candidate_id := candidate.candidate_id
    passed := overall_passed
    rules_checked := rules.length
    rules_passed := rules_passed
    rules_failed := rules_failed
    rule_results := rules
    critical_failures := critical_failures
    warnings := warnings }

-- ---------------------------------------------------------------------------
-- Red-team executor (worker/executors/redteam.py)
-- ---------------------------------------------------------------------------

/-- One entry of the fixed `STRESS_SCENARIOS` catalogue. -/
structure StressScenario where
  id : String
  name : String
  type : String
  description : String
  equity_shock : Rat
  bond_shock : Rat
  vol_multiplier : Rat
deriving Repr, DecidableEq

def STRESS_SCENARIOS : List StressScenario :=
  [{ id := "2008_FINANCIAL_CRISIS", name := "2008 Financial Crisis",
     type := "historical", description := "Lehman collapse and credit freeze",
     equity_shock := -(50/100), bond_shock := -(10/100), vol_multiplier := 3 },
   { id := "2020_COVID_CRASH", name := "2020 COVID Crash",
     type := "historical", description := "March 2020 pandemic selloff",
     equity_shock := -(35/100), bond_shock := 5/100, vol_multiplier := 4 },
   { id := "RATE_SHOCK_UP", name := "Interest Rate Shock (+300bps)",
     type := "synthetic", description := "Rapid rate hike scenario",
     equity_shock := -(15/100), bond_shock := -(20/100), vol_multiplier := 2 },
   { id := "STAGFLATION", name := "Stagflation Scenario",
     type := "synthetic", description := "High inflation with low growth",
     equity_shock := -(25/100), bond_shock := -(15/100),
     vol_multiplier := 5/2 },
   { id := "LIQUIDITY_CRISIS", name := "Liquidity Crisis",
     type := "adversarial", description := "Severe market liquidity stress",
     equity_shock := -(30/100), bond_shock := -(5/100),
     vol_multiplier := 7/2 },
   { id := "CURRENCY_CRISIS", name := "Currency Crisis",
     type := "adversarial", description := "Dollar collapse scenario",
     equity_shock := -(20/100), bond_shock := -(10/100),
     vol_multiplier := 5/2 },
   { id := "TECH_BUBBLE_BURST", name := "Tech Bubble Burst",
     type := "adversarial", description := "Technology sector collapse",
     equity_shock := -(40/100), bond_shock := 5/100, vol_multiplier := 2 }]

/-- `RedTeamExecutor._run_scenario`: linear shock impact plus seeded noise,
drawdown, VaR breach and severity classification. -/
def runScenario (candidate : PortfolioCandidate) (scenario : StressScenario)
    (rng : PyRand) : ScenarioResult × PyRand :=
  let equity_impact := candidate.equity_allocation * scenario.equity_shock
  let bond_impact := candidate.fixed_income_allocation * scenario.bond_shock
  let cash_impact := candidate.cash_allocation * 0
  let base_return := equity_impact + bond_impact + cash_impact
  let (noise, rng1) := pyGauss 0 (2/100) rng
  let total_return := base_return + noise
  let drawdown := min 0 total_return
  let var_breach := decide (total_return < -(15/100))
  let severity :=
    if drawdown > -(10/100) then "low"
    else if drawdown > -(20/100) then "medium"
    else if drawdown > -(30/100) then "high"
    else "critical"
  let passed := decide (drawdown > -(30/100)) && !var_breach
  ({ scenario_id := scenario.id
     scenario_name := scenario.name
     scenario_type := scenario.type
     description := scenario.description
     portfolio_return := round4 total_return
     portfolio_drawdown := round4 drawdown
     var_breach := var_breach
     severity := severity
     passed := passed }, rng1)

/-- Accumulator state of the scenario loop in `RedTeamExecutor.execute`. -/
structure RedTeamLoopState where
  rng : PyRand
  results : List ScenarioResult
  breaking : List String
  worst_drawdown : Rat
  worst_scenario : Option ScenarioResult
deriving Repr, DecidableEq

/-- The scenario loop of `RedTeamExecutor.execute`. -/
def redteamLoop (candidate : PortfolioCandidate) (st : RedTeamLoopState)
    (scenarios : List StressScenario) : RedTeamLoopState :=
  scenarios.foldl (fun st scenario =>
    let (result, rng1) := runScenario candidate scenario st.rng
    let breaking :=
      if result.passed then st.breaking else st.breaking ++ [scenario.id]
    let (wd, ws) :=
      if result.portfolio_drawdown < st.worst_drawdown then
        (result.portfolio_drawdown, some result)
      else (st.worst_drawdown, st.worst_scenario)
    { rng := rng1, results := st.results ++ [result], breaking := breaking,
      worst_drawdown := wd, worst_scenario := ws }) st

/-- `RedTeamExecutor.execute`: seeds the generator with
`seed + hash(candidate_id)`, runs the seven fixed scenarios, and computes
the aggregate metrics and overall pass flag. -/
def redteamExecute (run_id uuid : String) (now : Nat)
    (candidate : PortfolioCandidate) (seed : Int) : RedTeamReport :=
  let rng0 := pyRandSeed (seed + pyHashStr candidate.candidate_id)
  let st := redteamLoop candidate
    { rng := rng0, results := [], breaking := [], worst_drawdown := 0,
      worst_scenario := none } STRESS_SCENARIOS
  let n := st.results.length
  let avg_drawdown :=
    (st.results.map (·.portfolio_drawdown)).foldl (· + ·) (0 : Rat) / n
  let max_drawdown :=
    ((st.results.map (·.portfolio_drawdown)).foldl min 0)
  let sorted_returns :=
    sortBy (fun a b => a ≤ b) (st.results.map (·.portfolio_return))
  let idx := n * 5 / 100
  let var_95 := sorted_returns.getD (max 0 idx) 0
  let k := max 1 idx
  let cvar_95 := ((sorted_returns.take k).foldl (· + ·) (0 : Rat)) / k
  let overall_passed :=
    decide (st.breaking.length ≤ 1) && decide (st.worst_drawdown > -(35/100))
  { artifact_id := "redteam-" ++ candidate.candidate_id ++ "-" ++ uuid
    artifact_type := "redteam_report"
    run_id := run_id
    stage_id := "verify_candidates"
    producer := "RedTeamExecutor"
    parent_hashes := [candidate.artifact_hash]
    data_classification := .derived
    sources := [candidate.artifact_id]
    created_at := now
    candidate_id := candidate.candidate_id
    seed := seed
    scenarios_tested := n
    search_budget := 100
    passed := overall_passed
    worst_scenario := st.worst_scenario
    scenario_results := st.results
    avg_drawdown := round4 avg_drawdown
    max_drawdown := round4 max_drawdown
    var_95 := round4 var_95
    cvar_95 := round4 cvar_95
    breaking_scenarios := st.breaking }

-- ---------------------------------------------------------------------------
-- Rank and select executor (worker/executors/selection.py)
-- ---------------------------------------------------------------------------

/-- Placeholder candidate used only to totalize association-list lookups
that cannot fail on the Python side (a missing key would be a KeyError). -/
def dummyCandidate : PortfolioCandidate :=
  { artifact_id := "", artifact_type := "portfolio_candidate", run_id := "",
    stage_id := "", producer := "", candidate_id := "", solver_config := "",
    diversity_seed := 0 }

/-- Model of the Python builtin `max(keys, key=score)` over an
insertion-ordered score map: the first key attaining the maximal score.
Returns none exactly when the map is empty (Python raises ValueError). -/
def argmaxFirst (scores : List (String × Rat)) : Option String :=
  (scores.foldl (fun acc p =>
    match acc with
    | none => some p
    | some q => if p.2 > q.2 then some p else acc) none).map (·.1)

/-- Accumulator of the scoring loop in `RankSelectExecutor.execute`. -/
structure SelectLoopState where
  candidate_scores : List (String × Rat)
  candidate_details : List (String × CandidateDetail)
  rejected : List (String × String)
deriving Repr, DecidableEq

/-- The per-candidate scoring loop body of `RankSelectExecutor.execute`:
a failed compliance or red-team report sends the candidate to the
rejected map with score zero, otherwise the three normalized component
scores are combined with the fixed weights. -/
def selectLoopStep (compliance_reports : List (String × ComplianceReport))
    (redteam_reports : List (String × RedTeamReport))
    (st : SelectLoopState) (entry : String × PortfolioCandidate) :
    SelectLoopState :=
  let candidate_id := entry.1
  let candidate := entry.2
  let compliance := alistLookup compliance_reports candidate_id
  let redteam := alistLookup redteam_reports candidate_id
  match compliance with
  | some comp =>
    if !comp.passed then
      { st with
        rejected := st.rejected ++ [(candidate_id,
          "Failed compliance: " ++ strListRepr comp.critical_failures)]
        candidate_scores := st.candidate_scores ++ [(candidate_id, 0)] }
    else
      match redteam with
      | some rt =>
        if !rt.passed then
          { st with
            rejected := st.rejected ++ [(candidate_id,
              "Failed red-team: " ++ toString rt.breaking_scenarios.length ++
                " breaking scenarios")]
            candidate_scores := st.candidate_scores ++ [(candidate_id, 0)] }
        else
          selectScore st candidate_id candidate compliance redteam
      | none => selectScore st candidate_id candidate compliance redteam
  | none =>
    match redteam with
    | some rt =>
      if !rt.passed then
        { st with
          rejected := st.rejected ++ [(candidate_id,
            "Failed red-team: " ++ toString rt.breaking_scenarios.length ++
              " breaking scenarios")]
          candidate_scores := st.candidate_scores ++ [(candidate_id, 0)] }
      else selectScore st candidate_id candidate compliance redteam
    | none => selectScore st candidate_id candidate compliance redteam
where
  /-- The scoring branch of the loop body. -/
  selectScore (st : SelectLoopState) (candidate_id : String)
      (candidate : PortfolioCandidate)
      (compliance : Option ComplianceReport)
      (redteam : Option RedTeamReport) : SelectLoopState :=
    let risk_score := match redteam with
      | some rt => max 0 (1 + rt.max_drawdown / (1/2))
      | none => 1/2
    let return_score := min 1 (max 0 (candidate.expected_return / (1/5)))
    let sharpe_score := min 1 (max 0 (candidate.expected_sharpe / 2))
    let total_score :=
      risk_score * (3/10) + return_score * (35/100) + sharpe_score * (35/100)
    { st with
      candidate_scores :=
        st.candidate_scores ++ [(candidate_id, round4 total_score)]
      candidate_details := st.candidate_details ++ [(candidate_id,
        { risk_score := risk_score, return_score := return_score,
          sharpe_score := sharpe_score,
          expected_return := candidate.expected_return,
          expected_volatility := candidate.expected_volatility,
          expected_sharpe := candidate.expected_sharpe,
          max_drawdown := redteam.map (·.max_drawdown),
          compliance_passed := compliance.map (·.passed),
          redteam_passed := redteam.map (·.passed) })] }

/-- The whole scoring loop of `RankSelectExecutor.execute`. -/
def selectFold (compliance_reports : List (String × ComplianceReport))
    (redteam_reports : List (String × RedTeamReport))
    (candidates : List (String × PortfolioCandidate)) : SelectLoopState :=
  candidates.foldl (selectLoopStep compliance_reports redteam_reports)
    { candidate_scores := [], candidate_details := [], rejected := [] }

/-- The `eligible_candidates` list of `RankSelectExecutor.execute`: score
keys with no rejection entry. -/
def eligibleOf (st : SelectLoopState) : List String :=
  (st.candidate_scores.map (·.1)).filter
    (fun c => (alistLookup st.rejected c).isNone)

/-- `RankSelectExecutor.execute`. Returns `Except.error` exactly where the
Python code raises (the `max` over an empty score map). -/
def rankSelectExecute (run_id uuid : String) (now : Nat)
    (candidates : List (String × PortfolioCandidate))
    (compliance_reports : List (String × ComplianceReport))
    (redteam_reports : List (String × RedTeamReport))
    (_mandate : MandateDSL) : Except String Decision :=
  let weights : List (String × Rat) :=
    [("compliance", 0), ("risk", 3/10), ("return", 35/100),
     ("sharpe", 35/100)]
  let st := selectFold compliance_reports redteam_reports candidates
  let eligible_candidates := eligibleOf st
  let selRat : Option (String × String) :=
    if eligible_candidates.isEmpty then
      match argmaxFirst st.candidate_scores with
      | none => none
      | some sel => some (sel,
          "No candidates passed all checks. Selected " ++ sel ++
            " as best available option.")
    else
      match argmaxFirst (st.candidate_scores.filter
          (fun p => eligible_candidates.contains p.1)) with
      | none => none
      | some sel =>
        let winner_score := (alistLookup st.candidate_scores sel).getD 0
        let winner := (alistLookup candidates sel).getD dummyCandidate
        some (sel,
          "Selected Candidate " ++ sel ++ " with score " ++
            ratStr winner_score ++ ". Expected return: " ++
            pctStr winner.expected_return ++ ", Expected Sharpe: " ++
            ratStr winner.expected_sharpe ++ ".")
  match selRat with
  | none => Except.error "max() arg is an empty sequence"
  | some (selected, rationale) =>
    Except.ok
      { artifact_id := "decision-" ++ uuid
        artifact_type := "decision"
        run_id := run_id
        stage_id := "rank_select"
        producer := "RankSelectExecutor"
        parent_hashes :=
          [((alistLookup candidates selected).getD dummyCandidate).artifact_hash]
        data_classification := .derived
        sources := candidates.map (·.2.artifact_id)
        created_at := now
        selected_candidate := selected
        selection_rationale := rationale
        candidate_scores := st.candidate_scores
        scoring_weights := weights
        candidate_comparison := st.candidate_details
        rejected_candidates := st.rejected }

-- ---------------------------------------------------------------------------
-- Candidate generator (worker/executors/candidates.py)
-- ---------------------------------------------------------------------------

/-- Lookup with Python dict-comprehension semantics: the last binding for a
key wins (the comprehension overwrites earlier duplicates). -/
def alistLookupLast {α : Type} (l : List (String × α)) (k : String) :
    Option α :=
  (l.reverse.find? (fun p => p.1 == k)).map (·.2)

/-- One solver configuration from the fixed `configs` list. -/
structure SolverConfig where
  id : String
  name : String
  return_weight : Rat
  risk_weight : Rat
  seed_offset : Int
deriving Repr, DecidableEq

/-- The three fixed solver configurations of
`GenerateCandidatesExecutor.execute`. -/
def solverConfigs : List SolverConfig :=
  [{ id := "A", name := "Return-Focused", return_weight := 8/10,
     risk_weight := 2/10, seed_offset := 0 },
   { id := "B", name := "Risk-Focused", return_weight := 2/10,
     risk_weight := 8/10, seed_offset := 1000 },
   { id := "C", name := "Balanced", return_weight := 5/10,
     risk_weight := 5/10, seed_offset := 2000 }]

/-- Scored fund entry inside `_generate_candidate`. -/
structure ScoredFund where
  fund : FundInfo
  features : FundFeatures
  score : Rat
deriving Repr, DecidableEq

/-- State of the weight-assignment loop in `_generate_candidate`. -/
structure WeightLoopState where
  rng : PyRand
  remaining_weight : Rat
  holdings : List HoldingAllocation
deriving Repr, DecidableEq

/-- The weight-assignment loop of `_generate_candidate`: the last selected
fund absorbs the remaining weight, every other draw is uniform between 2%
and the running cap. -/
def weightLoop (max_position : Rat) (selected : List ScoredFund) :
    PyRand → WeightLoopState :=
  fun rng =>
    (List.range selected.length).foldl (fun st i =>
      match selected.get? i with
      | none => st
      | some item =>
        let (weight, rng1) :=
          if i = selected.length - 1 then (st.remaining_weight, st.rng)
          else
            let max_w := min max_position
              (st.remaining_weight - (2/100) * (selected.length - i - 1 : Nat))
            let (w, r) := pyRandUniform (2/100) (max (2/100) max_w) st.rng
            (round4 w, r)
        { rng := rng1
          remaining_weight := st.remaining_weight - weight
          holdings := st.holdings ++
            [{ fund_accession := item.fund.accession_number
               fund_name := item.fund.series_name
               weight := weight
               expected_contribution :=
                 weight * (item.features.annualized_return.getD 0) }] })
      { rng := rng, remaining_weight := 1, holdings := [] }

/-- `GenerateCandidatesExecutor._generate_candidate`. The `uuid` and `now`
parameters model the uuid4 hex suffix and creation timestamp; everything
else is a deterministic function of the solver config, the inputs and the
per-candidate seed (the generator is re-seeded with that seed on entry). -/
def generateCandidate (run_id uuid : String) (now : Nat)
    (config : SolverConfig) (mandate : MandateDSL) (univ : Universe)
    (feature_map : List (String × FundFeatures)) (seed : Int) :
    PortfolioCandidate :=
  let rng0 := pyRandSeed seed
  let scored_funds := univ.funds.filterMap (fun fund =>
    match alistLookupLast feature_map fund.accession_number with
    | none => none
    | some features =>
      let return_score := (features.sharpe.getD 0) * config.return_weight
      let risk_score := (1 - (features.volatility.getD 1)) * config.risk_weight
      some { fund := fund, features := features,
             score := return_score + risk_score })
  let sorted := sortBy (fun a b => a.score ≥ b.score) scored_funds
  let (num_positions, rng1) := pyRandInt 10 20 rng0
  let pre_selected := sorted.take (num_positions + 5)
  let (shuffled, rng2) := pyShuffle pre_selected rng1
  let selected := shuffled.take num_positions
  let st := weightLoop mandate.max_single_position selected rng2
  let total_weight :=
    (st.holdings.map (·.weight)).foldl (· + ·) (0 : Rat)
  let holdings :=
    if total_weight > 0 then
      st.holdings.map (fun h => { h with weight := round4 (h.weight / total_weight) })
    else st.holdings
  let expected_return :=
    (holdings.map (·.expected_contribution)).foldl (· + ·) (0 : Rat)
  let expected_vol := holdings.foldl (fun acc h =>
    match alistLookupLast feature_map h.fund_accession with
    | none => acc
    | some f => acc + h.weight * (f.volatility.getD (1/10))) (0 : Rat)
  let expected_sharpe :=
    if expected_vol > 0 then expected_return / expected_vol else 0
  let equity_alloc := holdings.foldl (fun acc h =>
    match alistLookupLast feature_map h.fund_accession with
    | none => acc
    | some f => acc + h.weight * f.equity_exposure) (0 : Rat)
  let fixed_income_alloc := holdings.foldl (fun acc h =>
    match alistLookupLast feature_map h.fund_accession with
    | none => acc
    | some f => acc + h.weight * f.fixed_income_exposure) (0 : Rat)
  let (solver_iterations, rng3) := pyRandInt 50 200 st.rng
  let (solver_time_ms, _) := pyRandInt 100 500 rng3
  { artifact_id := "candidate-" ++ config.id ++ "-" ++ uuid
    artifact_type := "portfolio_candidate"
    run_id := run_id
    stage_id := "generate_candidates"
    producer := "GenerateCandidatesExecutor"
    parent_hashes := []
    data_classification := .derived
    sources := selected.map (·.fund.accession_number)
    created_at := now
    candidate_id := config.id
    solver_config := config.name
    diversity_seed := seed
    holdings := holdings
    total_positions := holdings.length
    expected_return := round4 expected_return
    expected_volatility := round4 expected_vol
    expected_sharpe := round4 expected_sharpe
    equity_allocation := round4 equity_alloc
    fixed_income_allocation := round4 fixed_income_alloc
    cash_allocation := 0
    max_position_size :=
      (match holdings.map (·.weight) with
       | [] => 0
       | w :: ws => ws.foldl max w)
    optimization_score :=
      if selected.length > 0 then
        round4 (((selected.map (·.score)).foldl (· + ·) (0 : Rat)) /
          selected.length)
      else 0
    constraint_violations := []
    solver_iterations := solver_iterations
    solver_time_ms := solver_time_ms }

/-- `GenerateCandidatesExecutor.execute`: builds the feature map, then
generates one candidate per fixed config, seeding each with
`seed + config.seed_offset`. The `ext` function models the uuid4 draw and
timestamp of each candidate, keyed by config id. -/
def generateCandidatesExecute (run_id : String)
    (ext : String → String × Nat) (mandate : MandateDSL)
    (univ : Universe) (features : List FundFeatures) (seed : Int) :
    List PortfolioCandidate :=
  let feature_map := features.map (fun f => (f.accession_number, f))
  solverConfigs.map (fun config =>
    generateCandidate run_id (ext config.id).1 (ext config.id).2 config
      mandate univ feature_map (seed + config.seed_offset))

-- ---------------------------------------------------------------------------
-- Repair loop executor (worker/executors/repair.py)
-- ---------------------------------------------------------------------------

/-- Renormalization step shared by both repair strategies: divide every
weight by the total and round to four places (skipped when the total is
not positive). -/
def renormalizeHoldings (holdings : List HoldingAllocation) :
    List HoldingAllocation :=
  let total := (holdings.map (·.weight)).foldl (· + ·) (0 : Rat)
  if total > 0 then
    holdings.map (fun h => { h with weight := round4 (h.weight / total) })
  else holdings

/-- `RepairLoopExecutor._reduce_concentration`: trim every oversized
position to the cap, redistributing the excess over the currently small
positions, then renormalize. The Python in-place mutation over the list
is modelled as an index-directed fold. -/
def reduceConcentration (holdings0 : List HoldingAllocation)
    (max_position : Rat) : List HoldingAllocation :=
  let l := (List.range holdings0.length).foldl (fun l i =>
    match l.get? i with
    | none => l
    | some h =>
      if h.weight > max_position then
        let excess := h.weight - max_position
        let l1 := l.set i { h with weight := max_position }
        let small_idx := (List.range l1.length).filter (fun j =>
          ((l1.get? j).map (·.weight)).getD 0 < max_position * (1/2))
        if small_idx.isEmpty then l1
        else
          let per_holding := excess / small_idx.length
          small_idx.foldl (fun l2 j =>
            match l2.get? j with
            | none => l2
            | some sh => l2.set j
                { sh with weight := min max_position (sh.weight + per_holding) })
            l1
      else l) holdings0
  renormalizeHoldings l

/-- `RepairLoopExecutor._reduce_risk`: sort descending by weight, shrink
the top three positions by 10 percent, then renormalize. -/
def reduceRisk (holdings0 : List HoldingAllocation) :
    List HoldingAllocation :=
  let sorted := sortBy (fun a b => a.weight ≥ b.weight) holdings0
  let l := (sorted.take 3).map (fun h => { h with weight := h.weight * (9/10) })
    ++ sorted.drop 3
  renormalizeHoldings l

/-- `RepairLoopExecutor._apply_repair`: collects the itemized issues and
applies the matching mechanical fixes; returns none when there are no
issues at all or when no collected issue matches a repair strategy. -/
def applyRepair (run_id uuid : String) (now : Nat)
    (candidate : PortfolioCandidate) (compliance : Option ComplianceReport)
    (redteam : Option RedTeamReport) (mandate : MandateDSL) :
    Option PortfolioCandidate :=
  let comp_issues : List String :=
    match compliance with
    | some c =>
      if !c.passed then
        ((c.rule_results.filter (fun r => !r.passed)).map (·.rule_category))
      else []
    | none => []
  let red_issue : Bool :=
    match redteam with
    | some r => !r.passed
    | none => false
  if comp_issues.isEmpty && !red_issue then none
  else
    let start : List HoldingAllocation × List String :=
      (candidate.holdings, [])
    let afterComp := comp_issues.foldl (fun st cat =>
      if cat == "concentration" then
        (reduceConcentration st.1 mandate.max_single_position,
          st.2 ++ ["reduced_concentration"])
      else if cat == "allocation" then (st.1, st.2 ++ ["adjusted_allocation"])
      else st) start
    let afterRed :=
      if red_issue then (reduceRisk afterComp.1, afterComp.2 ++ ["reduced_risk"])
      else afterComp
    if afterRed.2.isEmpty then none
    else
      let repaired_holdings := afterRed.1
      some
        { artifact_id := "candidate-" ++ candidate.candidate_id ++
            "-repaired-" ++ uuid
          artifact_type := "portfolio_candidate"
          run_id := run_id
          stage_id := "repair_loop"
          producer := "RepairLoopExecutor"
          parent_hashes := [candidate.artifact_hash]
          data_classification := .derived
          sources := [candidate.artifact_id]
          created_at := now
          candidate_id := candidate.candidate_id
          solver_config := candidate.solver_config ++ " (repaired)"
          diversity_seed := candidate.diversity_seed
          holdings := repaired_holdings
          total_positions := repaired_holdings.length
          expected_return := candidate.expected_return * (95/100)
          expected_volatility := candidate.expected_volatility * (9/10)
          expected_sharpe := candidate.expected_sharpe
          equity_allocation := candidate.equity_allocation * (95/100)
          fixed_income_allocation :=
            candidate.fixed_income_allocation * (105/100)
          cash_allocation := candidate.cash_allocation + 2/100
          max_position_size :=
            (match repaired_holdings.map (·.weight) with
             | [] => 0
             | w :: ws => ws.foldl max w)
          optimization_score := candidate.optimization_score
          constraint_violations := []
          solver_iterations := candidate.solver_iterations + 50
          solver_time_ms := candidate.solver_time_ms + 100 }

/-- Environment of one repair run: the uuid4 hex suffixes and timestamps
drawn in attempt number `n` by the repair itself and by the two re-run
check executors. -/
structure RepairEnv where
  repairUuid : Nat → String
  compUuid : Nat → String
  redUuid : Nat → String
  now : Nat → Nat

/-- Record of one effective repair iteration (an iteration in which
`_apply_repair` produced a new candidate version and both checks were
re-run on it). -/
structure RepairIter where
  candidate : PortfolioCandidate
  compliance : ComplianceReport
  redteam : RedTeamReport
deriving Repr, DecidableEq

def RepairIter.bothPass (it : RepairIter) : Bool :=
  it.compliance.passed && it.redteam.passed

/-- Return value of `RepairLoopExecutor.execute`, keeping the Optional
typing of the Python signature. -/
structure RepairOutcome where
  candidate : Option PortfolioCandidate
  compliance : Option ComplianceReport
  redteam : Option RedTeamReport
deriving Repr, DecidableEq

/-- The attempt loop of `RepairLoopExecutor.execute`, instrumented with the
list of effective iterations. `attempt` is the 1-based Python loop index
(it feeds the red-team re-check seed `42 + attempt`); `remaining` counts
the attempts still allowed. -/
def repairAttempts (run_id : String) (env : RepairEnv)
    (mandate : MandateDSL)
    (current : PortfolioCandidate × Option ComplianceReport ×
      Option RedTeamReport)
    (attempt : Nat) : (remaining : Nat) → RepairOutcome × List RepairIter
  | 0 => (⟨some current.1, current.2.1, current.2.2⟩, [])
  | remaining + 1 =>
    match applyRepair run_id (env.repairUuid attempt) (env.now attempt)
      current.1 current.2.1 current.2.2 mandate with
    | none =>
      repairAttempts run_id env mandate current (attempt + 1) remaining
    | some repaired =>
      let new_compliance := complianceExecute run_id (env.compUuid attempt)
        (env.now attempt) repaired mandate
      let new_redteam := redteamExecute run_id (env.redUuid attempt)
        (env.now attempt) repaired (42 + attempt)
      let it : RepairIter := ⟨repaired, new_compliance, new_redteam⟩
      if new_compliance.passed && new_redteam.passed then
        (⟨some repaired, some new_compliance, some new_redteam⟩, [it])
      else
        let rest := repairAttempts run_id env mandate
          (repaired, some new_compliance, some new_redteam) (attempt + 1)
          remaining
        (rest.1, it :: rest.2)

/-- `RepairLoopExecutor.execute`: no-op when both reports already pass
(a missing report counts as passing), otherwise up to `max_attempts`
repair attempts with early stop; budget exhaustion returns the last
(possibly still failing) candidate and report pair. -/
def repairLoopExecute (run_id : String) (env : RepairEnv)
    (candidate : PortfolioCandidate)
    (compliance_report : Option ComplianceReport)
    (redteam_report : Option RedTeamReport) (mandate : MandateDSL)
    (max_attempts : Nat := 3) : RepairOutcome × List RepairIter :=
  let compliance_passed :=
    match compliance_report with
    | none => true
    | some c => c.passed
  let redteam_passed :=
    match redteam_report with
    | none => true
    | some r => r.passed
  if compliance_passed && redteam_passed then
    (⟨some candidate, compliance_report, redteam_report⟩, [])
  else
    repairAttempts run_id env mandate
      (candidate, compliance_report, redteam_report) 1 max_attempts

-- ---------------------------------------------------------------------------
-- Workflow events and the orchestrator repair stage (worker/workflow.py)
-- ---------------------------------------------------------------------------

/-- Event kinds from backend/schemas/events.py. -/
inductive EventKind where
  | run_started | run_completed | run_failed
  | stage_started | stage_completed | stage_failed | stage_skipped
  | agent_started | agent_completed | executor_started | executor_completed
  | tool_called | tool_completed | tool_failed
  | candidate_created | candidate_passed | candidate_failed
  | candidate_repaired
  | compliance_check | redteam_check | repair_iteration
  | decision_made | artifact_persisted
  | progress_update | heartbeat
deriving Repr, DecidableEq

/-- Blackboard slice handled by `ICWorkflow._repair_loop`, together with
the orchestrator-level events it emits. Executor-internal progress
emissions are outside this stage model; the emitted list records the
orchestrator event kinds with their candidate ids in emission order. -/
structure RepairStageResult where
  candidates : List (String × PortfolioCandidate)
  compliance_reports : List (String × ComplianceReport)
  redteam_reports : List (String × RedTeamReport)
  events : List (EventKind × Option String)
deriving Repr, DecidableEq

/-- Replace every binding of `k` in an insertion-ordered association
list. -/
def alistSet {α : Type} (l : List (String × α)) (k : String) (v : α) :
    List (String × α) :=
  l.map (fun p => if p.1 == k then (k, v) else p)

/-- Model of Python `d[k] = v`: replace the binding in place when the key
exists, append it otherwise. -/
def alistInsert {α : Type} (l : List (String × α)) (k : String) (v : α) :
    List (String × α) :=
  if (alistLookup l k).isSome then alistSet l k v else l ++ [(k, v)]

/-- The entry condition of the orchestrator repair loop for one
candidate: a present-and-failed compliance report or a
present-and-failed red-team report. -/
def reportsFailing (co : Option ComplianceReport)
    (ro : Option RedTeamReport) : Bool :=
  (match co with
   | some c => !c.passed
   | none => false) ||
  (match ro with
   | some r => !r.passed
   | none => false)

/-- `ICWorkflow._repair_loop` body for one candidate: when the recorded
compliance or red-team report exists and failed, emit REPAIR_ITERATION,
run the repair executor, and, whenever the returned candidate is not
None (Python truthiness of a model instance), overwrite the blackboard
entries and emit CANDIDATE_REPAIRED. -/
def repairStageStep (run_id : String) (env : String → RepairEnv)
    (mandate : MandateDSL) (st : RepairStageResult)
    (entry : String × PortfolioCandidate) : RepairStageResult :=
  let candidate_id := entry.1
  let candidate := entry.2
  let compliance := alistLookup st.compliance_reports candidate_id
  let redteam := alistLookup st.redteam_reports candidate_id
  if reportsFailing compliance redteam then
    let st1 := { st with events := st.events ++
      [(EventKind.repair_iteration, some candidate_id)] }
    let result := repairLoopExecute run_id (env candidate_id) candidate
      compliance redteam mandate 3
    match result.1.candidate with
    | some repaired =>
      { candidates := alistInsert st1.candidates candidate_id repaired
        compliance_reports :=
          match result.1.compliance with
          | some c => alistInsert st1.compliance_reports candidate_id c
          | none => st1.compliance_reports
        redteam_reports :=
          match result.1.redteam with
          | some r => alistInsert st1.redteam_reports candidate_id r
          | none => st1.redteam_reports
        events := st1.events ++
          [(EventKind.candidate_repaired, some candidate_id)] }
    | none => st1
  else st

def workflowRepairStage (run_id : String) (env : String → RepairEnv)
    (mandate : MandateDSL)
    (candidates : List (String × PortfolioCandidate))
    (compliance_reports : List (String × ComplianceReport))
    (redteam_reports : List (String × RedTeamReport)) : RepairStageResult :=
  candidates.foldl (repairStageStep run_id env mandate)
    { candidates := candidates, compliance_reports := compliance_reports,
      redteam_reports := redteam_reports, events := [] }

-- ---------------------------------------------------------------------------
-- Audit finalize executor (worker/executors/audit.py)
-- ---------------------------------------------------------------------------

/-- The artifact-hash map collected by `AuditFinalizeExecutor.execute`:
the mandate, universe, decision and memo hashes plus one entry per
candidate — and nothing else. -/
def auditCollectHashes (mandate : MandateDSL) (univ : Universe)
    (candidates : List (String × PortfolioCandidate)) (decision : Decision)
    (memo : ICMemo) : List (String × String) :=
  [("mandate", mandate.artifact_hash),
   ("universe", univ.artifact_hash),
   ("decision", decision.artifact_hash),
   ("memo", memo.artifact_hash)] ++
  candidates.map (fun p => ("candidate_" ++ p.1, p.2.artifact_hash))

/-- `AuditFinalizeExecutor.execute`: builds the terminal AuditEvent whose
parent hashes, sources and details all derive from the collected hash
map; the decision-chain dictionaries are rendered to canonical strings. -/
def auditFinalizeExecute (run_id uuid : String) (now : Nat)
    (mandate : MandateDSL) (univ : Universe)
    (candidates : List (String × PortfolioCandidate)) (decision : Decision)
    (memo : ICMemo) : AuditEvent :=
  let artifact_hashes := auditCollectHashes mandate univ candidates decision memo
  let decision_chain : List String :=
    [canonicalJoin [("stage", "load_mandate"),
       ("artifact", mandate.artifact_id),
       ("timestamp", toString mandate.created_at)],
     canonicalJoin [("stage", "build_universe"),
       ("artifact", univ.artifact_id),
       ("timestamp", toString univ.created_at),
       ("fund_count", toString univ.total_fund_count)],
     canonicalJoin [("stage", "generate_candidates"),
       ("artifacts", strListRepr (candidates.map (·.2.artifact_id))),
       ("count", toString candidates.length)],
     canonicalJoin [("stage", "rank_select"),
       ("artifact", decision.artifact_id),
       ("selected", decision.selected_candidate),
       ("scores", canonicalJoin (decision.candidate_scores.map
         (fun p => (p.1, ratStr p.2))))],
     canonicalJoin [("stage", "write_memo"),
       ("artifact", memo.artifact_id),
       ("title", memo.memo_title)]]
  { artifact_id := "audit-" ++ uuid
    artifact_type := "audit_event"
    run_id := run_id
    stage_id := "audit_finalize"
    producer := "AuditFinalizeExecutor"
    parent_hashes := artifact_hashes.map (·.2)
    data_classification := .restricted
    sources := artifact_hashes.map (·.1)
    created_at := now
    event_id := "audit-final-" ++ run_id
    event_type := "run_completion"
    event_timestamp := now
    actor := "IC Autopilot"
    action := "finalize_audit"
    target := some run_id
    details :=
      { artifact_hashes := artifact_hashes
        decision_chain := decision_chain
        selected_candidate := decision.selected_candidate
        total_artifacts := artifact_hashes.length
        mandate_name := mandate.mandate_name
        universe_size := univ.total_fund_count }
    outcome := "success" }

-- ---------------------------------------------------------------------------
-- Workflow events, orchestrator emission, event bus and subscription
-- (backend/schemas/events.py, backend/services/event_bus.py,
--  ICWorkflow.emit in worker/workflow.py)
-- ---------------------------------------------------------------------------

inductive EventLevel where
  | info | warn | error
deriving Repr, DecidableEq

/-- WorkflowEvent from backend/schemas/events.py. The tracing and actor
fields that the orchestrator emission path leaves at their defaults are
not modelled; `ts` and `event_id` are environment-supplied defaults. -/
structure WorkflowEvent where
  event_id : String := ""
  run_id : String
  ts : Nat := 0
  sequence : Nat := 0
  level : EventLevel := .info
  kind : EventKind
  stage_id : Option String := none
  candidate_id : Option String := none
  message : String
  payload : List (String × String) := []
  duration_ms : Option Nat := none
deriving Repr, DecidableEq

/-- Arguments of one `ICWorkflow.emit` call. -/
structure EmitReq where
  kind : EventKind
  message : String
  stage_id : Option String := none
  candidate_id : Option String := none
  level : EventLevel := .info
  payload : List (String × String) := []
  duration_ms : Option Nat := none
deriving Repr, DecidableEq

/-- `ICWorkflow.emit`: increments the single-writer per-run counter and
publishes an event stamped with the new counter value. -/
def workflowEmit (run_id : String) (sequence : Nat) (req : EmitReq) :
    WorkflowEvent × Nat :=
  let seq := sequence + 1
  ({ run_id := run_id, kind := req.kind, level := req.level,
     stage_id := req.stage_id, candidate_id := req.candidate_id,
     message := req.message, sequence := seq, payload := req.payload,
     duration_ms := req.duration_ms }, seq)

/-- The full per-run emission history of an orchestrator that starts with
`self.sequence = 0` and performs the given emit calls in order. -/
def workflowEmitAll (run_id : String) (reqs : List EmitReq) :
    List WorkflowEvent :=
  (reqs.foldl (fun (st : List WorkflowEvent × Nat) req =>
    let (e, seq) := workflowEmit run_id st.2 req
    (st.1 ++ [e], seq)) ([], 0)).1

/-- `EventBus.publish` sequence assignment: an event arriving with
sequence 0 is stamped from the bus-local counter; events stamped by the
orchestrator pass through unchanged. The bus state tracks the per-run
counter and the append-only stream. -/
structure EventBusState where
  sequence_counters : List (String × Nat) := []
  streams : List (String × List WorkflowEvent) := []
deriving Repr, DecidableEq

def eventBusPublish (st : EventBusState) (event : WorkflowEvent) :
    EventBusState :=
  let (event, counters) :=
    if event.sequence = 0 then
      let next := ((alistLookup st.sequence_counters event.run_id).getD 0) + 1
      ({ event with sequence := next },
        alistSet (if (alistLookup st.sequence_counters event.run_id).isSome
          then st.sequence_counters
          else st.sequence_counters ++ [(event.run_id, 0)])
          event.run_id next)
    else (event, st.sequence_counters)
  let stream := (alistLookup st.streams event.run_id).getD []
  { sequence_counters := counters
    streams :=
      if (alistLookup st.streams event.run_id).isSome then
        alistSet st.streams event.run_id (stream ++ [event])
      else st.streams ++ [(event.run_id, [event])] }

/-- `heartbeat_event` from backend/schemas/events.py, stamped by the
subscription loop with its own local heartbeat counter. -/
def heartbeatEvent (run_id : String) (sequence : Nat) : WorkflowEvent :=
  { run_id := run_id, kind := .heartbeat, sequence := sequence,
    message := "heartbeat" }

/-- One scheduler step of the `EventBus.subscribe` loop: either the next
pending stream event is delivered, or the idle timer fires and a
heartbeat is yielded. -/
inductive SubStep where
  | deliver
  | heartbeat
deriving Repr, DecidableEq

/-- The sequence of events a subscriber to `run_id` observes, starting
from cursor 0, for a given published stream and scheduler behavior:
`deliver` yields the next undelivered stream event (if any pending),
`heartbeat` yields a heartbeat stamped with the subscription-local
counter (the loop increments it before each yield). -/
def subscribeObserved (published : List WorkflowEvent) (run_id : String) :
    (schedule : List SubStep) → (pos : Nat) → (hb : Nat) →
      List WorkflowEvent
  | [], _, _ => []
  | SubStep.deliver :: rest, pos, hb =>
    match published.get? pos with
    | some e => e :: subscribeObserved published run_id rest (pos + 1) hb
    | none => subscribeObserved published run_id rest pos hb
  | SubStep.heartbeat :: rest, pos, hb =>
    heartbeatEvent run_id (hb + 1) ::
      subscribeObserved published run_id rest pos (hb + 1)

/-- Strictly increasing with no gaps: each sequence number is the
successor of the previous one. -/
def strictNoGaps (l : List Nat) : Prop :=
  List.Chain' (fun a b => b = a + 1) l

/-- The RUN_STARTED event `execute_workflow` in backend/main.py builds:
`sequence` is left at its schema default 0, to be stamped by the bus. -/
def runStartedEvent (run_id : String) : WorkflowEvent :=
  { run_id := run_id, kind := .run_started,
    message := "IC Autopilot run started" }

/-- The RUN_COMPLETED event `execute_workflow` builds, again with
`sequence` left at its default 0. -/
def runCompletedEvent (run_id : String) : WorkflowEvent :=
  { run_id := run_id, kind := .run_completed,
    message := "IC Autopilot run completed successfully" }

/-- The success path of `execute_workflow` in backend/main.py: publish
RUN_STARTED, then every orchestrator emission in order, then
RUN_COMPLETED, all through `EventBus.publish` on a fresh bus; the
result is the run's stream as a subscriber reads it back. -/
def executeWorkflowPublished (run_id : String) (reqs : List EmitReq) :
    List WorkflowEvent :=
  let st1 := eventBusPublish {} (runStartedEvent run_id)
  let st2 := (workflowEmitAll run_id reqs).foldl eventBusPublish st1
  let st3 := eventBusPublish st2 (runCompletedEvent run_id)
  (alistLookup st3.streams run_id).getD []

-- ---------------------------------------------------------------------------
-- Stage-5 verification fan-out (ICWorkflow._verify_candidates /
-- _verify_single_candidate in worker/workflow.py)
-- ---------------------------------------------------------------------------

/-- Result of one per-candidate verification unit: what was recorded into
the two report blackboard maps, the exception (if any) escaping the unit
coroutine, and the orchestrator events it emitted. -/
structure VerifyUnitResult where
  compliance : Option ComplianceReport
  redteam : Option RedTeamReport
  error : Option String
  events : List (EventKind × Option String)
deriving Repr, DecidableEq

/-- `ICWorkflow._verify_single_candidate`, parametrized over the two check
computations (which may raise, modelled with Except): the compliance
check runs first and, only after it returns, the red-team check runs in
the same coroutine. An exception from either check escapes the unit at
that point. -/
def verifySingleCandidate
    (compCheck : PortfolioCandidate → Except String ComplianceReport)
    (redCheck : PortfolioCandidate → Except String RedTeamReport)
    (candidate_id : String) (candidate : PortfolioCandidate) :
    VerifyUnitResult :=
  match compCheck candidate with
  | .error e =>
    { compliance := none, redteam := none, error := some e,
      events := [(EventKind.compliance_check, some candidate_id)] }
  | .ok compliance_report =>
    let evs := [(EventKind.compliance_check, some candidate_id),
      ((if compliance_report.passed then EventKind.candidate_passed
        else EventKind.candidate_failed), some candidate_id),
      (EventKind.redteam_check, some candidate_id)]
    match redCheck candidate with
    | .error e =>
      { compliance := some compliance_report, redteam := none,
        error := some e, events := evs }
    | .ok redteam_report =>
      { compliance := some compliance_report, redteam := some redteam_report,
        error := none,
        events := evs ++ [((if redteam_report.passed then
          EventKind.candidate_passed else EventKind.candidate_failed),
          some candidate_id)] }

/-- `ICWorkflow._verify_candidates`: one unit per candidate, launched
together under `asyncio.gather` with default fail-fast semantics. The
gather call does not cancel sibling tasks, so the model runs every unit
to completion independently; the stage-level outcome carries the first
unit error (the exception `gather` re-raises to the orchestrator) when
any unit raised. -/
def verifyCandidatesStage
    (compCheck : PortfolioCandidate → Except String ComplianceReport)
    (redCheck : PortfolioCandidate → Except String RedTeamReport)
    (candidates : List (String × PortfolioCandidate)) :
    List (String × VerifyUnitResult) × Option String :=
  let results := candidates.map (fun p =>
    (p.1, verifySingleCandidate compCheck redCheck p.1 p.2))
  (results, (results.filterMap (·.2.error)).head?)

-- ---------------------------------------------------------------------------
-- Concrete fixtures used by the claim theorems
-- ---------------------------------------------------------------------------

set_option maxRecDepth 8000

/-- The balanced-growth mandate as stage 1 produces it. -/
def mTest : MandateDSL := loadMandateExecute "run-1" "mu" 0 "balanced_growth"

/-- Candidate violating only the minimum-equity allocation rule of
`mTest` (equity 30% against the 40% floor); every concentration,
diversification and ESG rule passes. -/
def candX : PortfolioCandidate :=
  { artifact_id := "candidate-X-x1"
    artifact_type := "portfolio_candidate"
    run_id := "run-1"
    stage_id := "generate_candidates"
    producer := "GenerateCandidatesExecutor"
    candidate_id := "X"
    solver_config := "Return-Focused"
    diversity_seed := 42
    holdings := []
    total_positions := 10
    expected_return := 12/100
    expected_volatility := 10/100
    expected_sharpe := 12/10
    equity_allocation := 30/100
    fixed_income_allocation := 30/100
    cash_allocation := 0
    max_position_size := 5/100 }

/-- Candidate satisfying every compliance rule of `mTest`, with strictly
worse return and Sharpe metrics than `candX`. -/
def candY : PortfolioCandidate :=
  { candX with
    artifact_id := "candidate-Y-y1"
    candidate_id := "Y"
    equity_allocation := 50/100
    expected_return := 10/100
    expected_sharpe := 1 }

def compX : ComplianceReport := complianceExecute "run-1" "cx" 0 candX mTest

def compY : ComplianceReport := complianceExecute "run-1" "cy" 0 candY mTest

/-- A passing red-team report fixture for a candidate. -/
def rtPass (c : PortfolioCandidate) (u : String) : RedTeamReport :=
  { artifact_id := "redteam-" ++ c.candidate_id ++ "-" ++ u
    artifact_type := "redteam_report"
    run_id := "run-1"
    stage_id := "verify_candidates"
    producer := "RedTeamExecutor"
    candidate_id := c.candidate_id
    seed := 42
    scenarios_tested := 7
    passed := true
    max_drawdown := -(1/10) }

def rtX : RedTeamReport := rtPass candX "rx"

def rtY : RedTeamReport := rtPass candY "ry"

def uTest : Universe :=
  { artifact_id := "universe-u1"
    artifact_type := "universe"
    run_id := "run-1"
    stage_id := "build_universe"
    producer := "BuildUniverseExecutor"
    universe_name := "Universe for Balanced Growth Fund"
    funds := []
    total_fund_count := 0 }

def decTest : Decision :=
  { artifact_id := "decision-d1"
    artifact_type := "decision"
    run_id := "run-1"
    stage_id := "rank_select"
    producer := "RankSelectExecutor"
    selected_candidate := "X"
    selection_rationale := "Selected Candidate X with score 59/100." }

def memoTest : ICMemo :=
  { artifact_id := "memo-m1"
    artifact_type := "ic_memo"
    run_id := "run-1"
    stage_id := "write_memo"
    producer := "MemoWriterExecutor"
    memo_title := "IC Memo"
    executive_summary := "s"
    recommendation := "r"
    mandate_summary := "ms"
    market_context := "mc"
    portfolio_overview := "po"
    risk_analysis := "ra"
    compliance_summary := "cs"
    implementation_plan := "ip" }

def fundT : FundInfo :=
  { accession_number := "0001"
    series_name := "Fund One"
    series_id := "S1"
    manager_name := "Mgr"
    total_assets := 1000
    net_assets := 900
    primary_asset_class := "equity"
    holding_count := 10
    equity_pct := 60/100
    fixed_income_pct := 30/100
    cash_pct := 10/100
    other_pct := 0 }

def featT : FundFeatures :=
  { artifact_id := "features-0001"
    artifact_type := "fund_features"
    run_id := "run-1"
    stage_id := "compute_features"
    producer := "ComputeFeaturesExecutor"
    accession_number := "0001"
    series_name := "Fund One"
    annualized_return := some (8/100)
    volatility := some (12/100)
    sharpe := some (2/3)
    equity_exposure := 60/100
    fixed_income_exposure := 30/100 }

def uSmall : Universe := { uTest with funds := [fundT], total_fund_count := 1 }

/-- Candidate in repair fixtures: compliance failed on the
diversification rule only (a category the mechanical repair strategies
do not handle), red-team report absent. -/
def candD : PortfolioCandidate :=
  { candX with
    artifact_id := "candidate-D-d1"
    candidate_id := "D"
    total_positions := 3 }

def ruleD : ComplianceRule :=
  { rule_id := "DIV-001"
    rule_name := "Minimum Diversification"
    rule_category := "diversification"
    passed := false
    actual_value := 3
    limit_value := 5
    message := "Positions 3 < min 5" }

def compD : ComplianceReport :=
  { artifact_id := "compliance-D-cd"
    artifact_type := "compliance_report"
    run_id := "run-1"
    stage_id := "verify_candidates"
    producer := "ComplianceCheckExecutor"
    candidate_id := "D"
    passed := false
    rules_checked := 8
    rules_passed := 7
    rules_failed := 1
    rule_results := [ruleD]
    warnings := ["Positions 3 < min 5"] }

def testEnv : RepairEnv :=
  { repairUuid := fun _ => "ru"
    compUuid := fun _ => "cu"
    redUuid := fun _ => "du"
    now := fun _ => 0 }

-- ---------------------------------------------------------------------------
-- C8: Mandate Loader fallback
-- ---------------------------------------------------------------------------

/-- C8: the claim (and the spec and the repository test
test_unknown_mandate_uses_default) states that an unknown mandate
identifier retains the caller-supplied id as mandate_id while using the
default archetype constraint values. The code instead reassigns the
local mandate_id to "balanced_growth" before building the artifact, so
the caller-supplied identifier is lost: evaluated at the failing input
"unknown-mandate-xyz", the produced MandateDSL carries the default id,
not the caller id, together with the default constraint values. -/
theorem c8_unknown_mandate_fallback_drops_caller_id :
    (loadMandateExecute "run-1" "u0" 0 "unknown-mandate-xyz").mandate_id
        = "balanced_growth" ∧
    (loadMandateExecute "run-1" "u0" 0 "unknown-mandate-xyz").mandate_id
        ≠ "unknown-mandate-xyz" ∧
    (loadMandateExecute "run-1" "u0" 0 "unknown-mandate-xyz").mandate_name
        = balancedGrowthTemplate.mandate_name ∧
    (loadMandateExecute "run-1" "u0" 0 "unknown-mandate-xyz").max_single_position
        = balancedGrowthTemplate.max_single_position := by
  refine ⟨rfl, by decide, rfl, rfl⟩

-- ---------------------------------------------------------------------------
-- C2: artifact hash input
-- ---------------------------------------------------------------------------

/-- Mandate with a first uuid-based storage identifier. -/
def cexM1 : MandateDSL := loadMandateExecute "run-1" "aaaa" 7 "balanced_growth"

/-- The same mandate content under a second storage identifier. -/
def cexM2 : MandateDSL := { cexM1 with artifact_id := "mandate-bbbb" }

/-- C2 counterexample: two mandates with identical logical content that
differ only in the randomly generated `artifact_id` have different
artifact hashes, because the hash input excludes only the hash field and
`created_at` and therefore contains the uuid-based `artifact_id`. -/
theorem c2_counterexample_uuid_changes_hash :
    cexM2 = { cexM1 with artifact_id := "mandate-bbbb" } ∧
    cexM1.artifact_id ≠ cexM2.artifact_id ∧
    cexM1.artifact_hash ≠ cexM2.artifact_hash :=
  ⟨rfl, by decide, by decide⟩

/-- C2 (amended): the artifact hash is a digest over the canonical
key-sorted serialization of all fields except the hash field and the
creation timestamp — and nothing more is excluded: changing only
`created_at` never changes the hash, while two artifacts with the same
logical content but different uuid-based `artifact_id` values (the
concrete pair `cexM1`/`cexM2`) have different hashes. -/
theorem c2_hash_excludes_only_hash_field_and_timestamp :
    (∀ (m : MandateDSL) (t : Nat),
      MandateDSL.artifact_hash { m with created_at := t } = m.artifact_hash) ∧
    cexM1.artifact_hash ≠ cexM2.artifact_hash :=
  ⟨fun _ _ => rfl, by decide⟩

-- ---------------------------------------------------------------------------
-- C4: candidate generation reproducibility
-- ---------------------------------------------------------------------------

/-- Erase the externally drawn storage identifier and creation timestamp
of a candidate (the two fields that differ between two invocations on
identical inputs). -/
def eraseExt (c : PortfolioCandidate) : PortfolioCandidate :=
  { c with artifact_id := "", created_at := 0 }

/-- C4 counterexample: two invocations of the candidate generator on the
identical `(mandate, universe, features, seed)` input draw different
uuid suffixes for their artifact ids, so the produced candidate sets are
not byte-identical. -/
theorem c4_counterexample_not_byte_identical :
    generateCandidatesExecute "run-1" (fun _ => ("u1", 1)) mTest uSmall
        [featT] 42 ≠
      generateCandidatesExecute "run-1" (fun _ => ("u2", 1)) mTest uSmall
        [featT] 42 := by decide

/-- C4 (amended): for every fixed input, two invocations of the candidate
generator agree on every candidate field except the uuid-based
`artifact_id` and the creation timestamp; the per-candidate RNG seed is
`seed + fixed_offset` with offsets 0, 1000, 2000 for candidates A, B, C
(recorded in `diversity_seed`). -/
theorem c4_deterministic_modulo_storage_id (run_id : String)
    (mandate : MandateDSL) (univ : Universe) (features : List FundFeatures)
    (seed : Int) (ext1 ext2 : String → String × Nat) :
    (generateCandidatesExecute run_id ext1 mandate univ features seed).map
        eraseExt =
      (generateCandidatesExecute run_id ext2 mandate univ features
        seed).map eraseExt ∧
    (generateCandidatesExecute run_id ext1 mandate univ features seed).map
        (·.diversity_seed) = [seed, seed + 1000, seed + 2000] ∧
    (generateCandidatesExecute run_id ext1 mandate univ features seed).map
        (·.candidate_id) = ["A", "B", "C"] := by
  refine ⟨rfl, ?_, rfl⟩
  show [seed + 0, seed + 1000, seed + 2000] = [seed, seed + 1000, seed + 2000]
  simp

-- ---------------------------------------------------------------------------
-- Association-list and argmax lemmas
-- ---------------------------------------------------------------------------

theorem alistLookup_cons {α : Type} (x : String × α) (xs : List (String × α))
    (k : String) :
    alistLookup (x :: xs) k =
      if x.1 == k then some x.2 else alistLookup xs k := by
  simp only [alistLookup, List.find?]
  cases h : (x.1 == k) <;> simp [h]

theorem alistLookup_append_left {α : Type} (l1 l2 : List (String × α))
    (k : String) :
    (alistLookup l1 k).isSome →
      alistLookup (l1 ++ l2) k = alistLookup l1 k := by
  induction l1 with
  | nil => intro h; simp [alistLookup] at h
  | cons x xs ih =>
    intro h
    rw [alistLookup_cons] at h
    rw [List.cons_append, alistLookup_cons, alistLookup_cons]
    by_cases hx : (x.1 == k) = true
    · simp only [if_pos hx]
    · rw [if_neg hx] at h
      simp only [if_neg hx]
      exact ih h

theorem alistLookup_append_isSome_left {α : Type} (l1 l2 : List (String × α))
    (k : String) (h : (alistLookup l1 k).isSome) :
    (alistLookup (l1 ++ l2) k).isSome := by
  rw [alistLookup_append_left l1 l2 k h]; exact h

theorem alistLookup_append_singleton_self {α : Type}
    (l : List (String × α)) (k : String) (v : α) :
    (alistLookup (l ++ [(k, v)]) k).isSome := by
  induction l with
  | nil => simp [alistLookup]
  | cons x xs ih =>
    rw [List.cons_append, alistLookup_cons]
    by_cases hx : (x.1 == k) = true
    · simp [hx]
    · simpa [hx] using ih

/-- The folding step of `argmaxFirst`. -/
theorem argmaxFirst_aux_isSome (xs : List (String × Rat)) :
    ∀ q : String × Rat,
      ((xs.foldl (fun acc p =>
        match acc with
        | none => some p
        | some q => if p.2 > q.2 then some p else acc) (some q))).isSome := by
  induction xs with
  | nil => intro q; simp
  | cons y ys ih =>
    intro q
    simp only [List.foldl_cons]
    by_cases hy : (y.2 > q.2)
    · simpa [hy] using ih y
    · simpa [hy] using ih q

theorem argmaxFirst_isSome (l : List (String × Rat)) (h : l ≠ []) :
    (argmaxFirst l).isSome := by
  match l with
  | [] => exact absurd rfl h
  | x :: xs =>
    simp only [argmaxFirst, List.foldl_cons]
    cases hr : (xs.foldl (fun acc p =>
        match acc with
        | none => some p
        | some q => if p.2 > q.2 then some p else acc) (some x)) with
    | none =>
      have := argmaxFirst_aux_isSome xs x
      rw [hr] at this
      simp at this
    | some r => rfl

theorem argmaxFirst_aux_spec (xs : List (String × Rat)) :
    ∀ (q r : String × Rat),
      (xs.foldl (fun acc p =>
        match acc with
        | none => some p
        | some q => if p.2 > q.2 then some p else acc) (some q)) = some r →
      (r = q ∨ r ∈ xs) ∧ q.2 ≤ r.2 ∧ ∀ p ∈ xs, p.2 ≤ r.2 := by
  induction xs with
  | nil =>
    intro q r h
    simp only [List.foldl_nil, Option.some.injEq] at h
    exact ⟨Or.inl h.symm, le_of_eq (congrArg Prod.snd h), by simp⟩
  | cons y ys ih =>
    intro q r h
    simp only [List.foldl_cons] at h
    by_cases hy : (y.2 > q.2)
    · simp only [hy, if_pos] at h
      obtain ⟨hmem, hle, hall⟩ := ih y r h
      refine ⟨?_, ?_, ?_⟩
      · rcases hmem with h1 | h1
        · exact Or.inr (by simp [h1])
        · exact Or.inr (List.mem_cons_of_mem y h1)
      · exact le_trans (le_of_lt hy) hle
      · intro p hp
        rcases List.mem_cons.mp hp with h1 | h1
        · rw [h1]; exact hle
        · exact hall p h1
    · simp only [hy, if_neg, not_false_iff] at h
      obtain ⟨hmem, hle, hall⟩ := ih q r h
      refine ⟨?_, hle, ?_⟩
      · rcases hmem with h1 | h1
        · exact Or.inl h1
        · exact Or.inr (List.mem_cons_of_mem y h1)
      · intro p hp
        rcases List.mem_cons.mp hp with h1 | h1
        · rw [h1]; exact le_trans (le_of_not_lt hy) hle
        · exact hall p h1

/-- `argmaxFirst` returns a key whose recorded value is maximal over the
whole list. -/
theorem argmaxFirst_spec (l : List (String × Rat)) (k : String)
    (h : argmaxFirst l = some k) :
    ∃ v, (k, v) ∈ l ∧ ∀ p ∈ l, p.2 ≤ v := by
  match l with
  | [] => simp [argmaxFirst] at h
  | x :: xs =>
    simp only [argmaxFirst, List.foldl_cons] at h
    cases hr : (xs.foldl (fun acc p =>
        match acc with
        | none => some p
        | some q => if p.2 > q.2 then some p else acc) (some x)) with
    | none => rw [hr] at h; simp at h
    | some r =>
      rw [hr] at h
      simp at h
      obtain ⟨hmem, hle, hall⟩ := argmaxFirst_aux_spec xs x r hr
      refine ⟨r.2, ?_, ?_⟩
      · have hkr : (k, r.2) = r := by rw [← h]
        rcases hmem with h1 | h1
        · rw [hkr, h1]; exact List.mem_cons_self x xs
        · rw [hkr]; exact List.mem_cons_of_mem x h1
      · intro p hp
        rcases List.mem_cons.mp hp with h1 | h1
        · rw [h1]; exact hle
        · exact hall p h1

-- ---------------------------------------------------------------------------
-- Selection loop lemmas
-- ---------------------------------------------------------------------------

theorem selectScore_scores (st : SelectLoopState) (cid : String)
    (c : PortfolioCandidate) (comp : Option ComplianceReport)
    (red : Option RedTeamReport) :
    ∃ s, (selectLoopStep.selectScore st cid c comp red).candidate_scores =
      st.candidate_scores ++ [(cid, s)] := by
  exact ⟨_, rfl⟩

/-- Every scoring-loop step appends exactly one entry to the score map. -/
theorem selectLoopStep_scores (comps : List (String × ComplianceReport))
    (reds : List (String × RedTeamReport)) (st : SelectLoopState)
    (e : String × PortfolioCandidate) :
    ∃ s, (selectLoopStep comps reds st e).candidate_scores =
      st.candidate_scores ++ [(e.1, s)] := by
  cases hc : alistLookup comps e.1 with
  | some comp =>
    by_cases hp : (!comp.passed) = true
    · exact ⟨0, by simp [selectLoopStep, hc, hp]⟩
    · cases hr : alistLookup reds e.1 with
      | some rt =>
        by_cases hq : (!rt.passed) = true
        · exact ⟨0, by simp [selectLoopStep, hc, hp, hr, hq]⟩
        · have := selectScore_scores st e.1 e.2 (some comp) (some rt)
          obtain ⟨s, hs⟩ := this
          exact ⟨s, by simp [selectLoopStep, hc, hp, hr, hq]; exact hs⟩
      | none =>
        obtain ⟨s, hs⟩ := selectScore_scores st e.1 e.2 (some comp) none
        exact ⟨s, by simp [selectLoopStep, hc, hp, hr]; exact hs⟩
  | none =>
    cases hr : alistLookup reds e.1 with
    | some rt =>
      by_cases hq : (!rt.passed) = true
      · exact ⟨0, by simp [selectLoopStep, hc, hr, hq]⟩
      · obtain ⟨s, hs⟩ := selectScore_scores st e.1 e.2 none (some rt)
        exact ⟨s, by simp [selectLoopStep, hc, hr, hq]; exact hs⟩
    | none =>
      obtain ⟨s, hs⟩ := selectScore_scores st e.1 e.2 none none
      exact ⟨s, by simp [selectLoopStep, hc, hr]; exact hs⟩

theorem selectFold_scores_len (comps : List (String × ComplianceReport))
    (reds : List (String × RedTeamReport)) :
    ∀ (cands : List (String × PortfolioCandidate)) (st : SelectLoopState),
      (cands.foldl (selectLoopStep comps reds) st).candidate_scores.length =
        st.candidate_scores.length + cands.length := by
  intro cands
  induction cands with
  | nil => intro st; simp
  | cons e rest ih =>
    intro st
    simp only [List.foldl_cons, List.length_cons]
    rw [ih]
    obtain ⟨s, hs⟩ := selectLoopStep_scores comps reds st e
    rw [hs]
    simp only [List.length_append, List.length_cons, List.length_nil]
    omega

theorem selectFold_scores_ne_nil (comps : List (String × ComplianceReport))
    (reds : List (String × RedTeamReport))
    (cands : List (String × PortfolioCandidate)) (h : cands ≠ []) :
    (selectFold comps reds cands).candidate_scores ≠ [] := by
  have hlen := selectFold_scores_len comps reds cands
    { candidate_scores := [], candidate_details := [], rejected := [] }
  intro hnil
  rw [selectFold] at hnil
  rw [hnil] at hlen
  simp at hlen
  exact h (List.length_eq_zero.mp hlen.symm)

-- ---------------------------------------------------------------------------
-- C5: degraded selection
-- ---------------------------------------------------------------------------

/-- C5 counterexample: an input with zero candidates (vacuously an input
in which no candidate passed both checks) makes the selector raise: the
Python `max` over the empty score map throws ValueError, modelled as the
error return. -/
theorem c5_counterexample_empty_input_throws :
    rankSelectExecute "run-1" "de" 0 [] [] [] mTest =
      Except.error "max() arg is an empty sequence" := by rfl

/-- C5 (amended): for every input with at least one candidate in which
zero candidates are eligible (the eligible list of the scoring loop is
empty), rank-and-select does not throw: it returns a Decision whose
selected candidate carries the maximum recorded score among all
candidates, with a rationale that explicitly records that no candidate
passed all checks. -/
theorem c5_degraded_selection_returns_best_of_failed (run_id uuid : String)
    (now : Nat) (cands : List (String × PortfolioCandidate))
    (comps : List (String × ComplianceReport))
    (reds : List (String × RedTeamReport)) (mandate : MandateDSL)
    (h1 : cands ≠ [])
    (h2 : eligibleOf (selectFold comps reds cands) = []) :
    ∃ d, rankSelectExecute run_id uuid now cands comps reds mandate =
        Except.ok d ∧
      (∃ v, (d.selected_candidate, v) ∈ d.candidate_scores ∧
        ∀ p ∈ d.candidate_scores, p.2 ≤ v) ∧
      d.selection_rationale = "No candidates passed all checks. Selected " ++
        d.selected_candidate ++ " as best available option." := by
  have hne := selectFold_scores_ne_nil comps reds cands h1
  have hsome := argmaxFirst_isSome (selectFold comps reds cands).candidate_scores hne
  cases hA : argmaxFirst (selectFold comps reds cands).candidate_scores with
  | none => rw [hA] at hsome; simp at hsome
  | some sel =>
    obtain ⟨v, hmem, hmax⟩ := argmaxFirst_spec _ _ hA
    simp only [rankSelectExecute, h2, List.isEmpty_nil, if_true, hA]
    exact ⟨_, rfl, ⟨v, hmem, hmax⟩, rfl⟩

/-- Candidate for the degraded-selection witness. -/
def candF : PortfolioCandidate :=
  { candX with
    artifact_id := "candidate-F-f1"
    candidate_id := "F" }

/-- Failing compliance report for the degraded-selection witness. -/
def compF : ComplianceReport :=
  { artifact_id := "compliance-F-cf"
    artifact_type := "compliance_report"
    run_id := "run-1"
    stage_id := "verify_candidates"
    producer := "ComplianceCheckExecutor"
    candidate_id := "F"
    passed := false
    rules_checked := 8
    rules_passed := 7
    rules_failed := 1
    critical_failures := ["Max position 12% > limit 8%"] }

/-- Witness for the degraded-selection theorem at a concrete one-candidate
input whose compliance report failed. -/
theorem c5_degraded_selection_witness :
    (([("F", candF)] : List (String × PortfolioCandidate)) ≠ [] ∧
      eligibleOf (selectFold [("F", compF)] [] [("F", candF)]) = []) ∧
    (∃ d, rankSelectExecute "run-1" "df" 0 [("F", candF)] [("F", compF)] []
        mTest = Except.ok d ∧
      (∃ v, (d.selected_candidate, v) ∈ d.candidate_scores ∧
        ∀ p ∈ d.candidate_scores, p.2 ≤ v) ∧
      d.selection_rationale = "No candidates passed all checks. Selected " ++
        d.selected_candidate ++ " as best available option.") :=
  ⟨⟨by decide, by decide⟩,
    c5_degraded_selection_returns_best_of_failed "run-1" "df" 0
      [("F", candF)] [("F", compF)] [] mTest (by decide) (by decide)⟩

-- ---------------------------------------------------------------------------
-- C7: compliance failure categories and selection gating
-- ---------------------------------------------------------------------------

/-- Selection outcome of the two-candidate counterexample run: the winner
id and the keys of the rejected map. -/
def c7SelOutcome : Option (String × List String) :=
  match rankSelectExecute "run-1" "du" 0 [("X", candX), ("Y", candY)]
    [("X", compX), ("Y", compY)] [("X", rtX), ("Y", rtY)] mTest with
  | .ok d => some (d.selected_candidate, d.rejected_candidates.map (·.1))
  | .error _ => none

/-- C7 counterexample: candidate X fails only the minimum-equity rule,
whose category "allocation" is not critical — its report records no
critical failure and one warning — yet its overall passed flag is False
and the selector rejects X (selecting Y, whose return and Sharpe metrics
are strictly worse). A warning-category failure therefore does block the
candidate from being selected, contrary to the claim. -/
theorem c7_counterexample_warning_failure_blocks_selection :
    compX.passed = false ∧
    compX.critical_failures = [] ∧
    compX.warnings = ["Equity 30% < min 40%"] ∧
    candX.expected_return > candY.expected_return ∧
    candX.expected_sharpe > candY.expected_sharpe ∧
    c7SelOutcome = some ("Y", ["X"]) := by decide

theorem selectLoopStep_rejected_mono
    (comps : List (String × ComplianceReport))
    (reds : List (String × RedTeamReport)) (st : SelectLoopState)
    (e : String × PortfolioCandidate) (cid : String)
    (h : (alistLookup st.rejected cid).isSome) :
    (alistLookup (selectLoopStep comps reds st e).rejected cid).isSome := by
  cases hc : alistLookup comps e.1 with
  | some comp =>
    by_cases hp : (!comp.passed) = true
    · simpa [selectLoopStep, hc, hp] using
        alistLookup_append_isSome_left _ _ _ h
    · cases hr : alistLookup reds e.1 with
      | some rt =>
        by_cases hq : (!rt.passed) = true
        · simpa [selectLoopStep, hc, hp, hr, hq] using
            alistLookup_append_isSome_left _ _ _ h
        · simpa [selectLoopStep, selectLoopStep.selectScore, hc, hp, hr, hq]
            using h
      | none =>
        simpa [selectLoopStep, selectLoopStep.selectScore, hc, hp, hr] using h
  | none =>
    cases hr : alistLookup reds e.1 with
    | some rt =>
      by_cases hq : (!rt.passed) = true
      · simpa [selectLoopStep, hc, hr, hq] using
          alistLookup_append_isSome_left _ _ _ h
      · simpa [selectLoopStep, selectLoopStep.selectScore, hc, hr, hq] using h
    | none =>
      simpa [selectLoopStep, selectLoopStep.selectScore, hc, hr] using h

theorem selectLoopStep_rejected_add
    (comps : List (String × ComplianceReport))
    (reds : List (String × RedTeamReport)) (st : SelectLoopState)
    (e : String × PortfolioCandidate) (cid : String)
    (he : e.1 = cid) (rep : ComplianceReport)
    (hc : alistLookup comps cid = some rep) (hp : rep.passed = false) :
    (alistLookup (selectLoopStep comps reds st e).rejected cid).isSome := by
  have hc' : alistLookup comps e.1 = some rep := by rw [he]; exact hc
  have hp' : (!rep.passed) = true := by rw [hp]; rfl
  have : (selectLoopStep comps reds st e).rejected =
      st.rejected ++ [(e.1, "Failed compliance: " ++
        strListRepr rep.critical_failures)] := by
    simp [selectLoopStep, hc', hp']
  rw [this, he]
  exact alistLookup_append_singleton_self _ _ _

theorem selectFold_rejected (comps : List (String × ComplianceReport))
    (reds : List (String × RedTeamReport)) (cid : String)
    (rep : ComplianceReport) (hc : alistLookup comps cid = some rep)
    (hp : rep.passed = false) :
    ∀ (cands : List (String × PortfolioCandidate)) (st : SelectLoopState),
      (cid ∈ cands.map Prod.fst ∨ (alistLookup st.rejected cid).isSome) →
      (alistLookup
        ((cands.foldl (selectLoopStep comps reds) st)).rejected cid).isSome := by
  intro cands
  induction cands with
  | nil =>
    intro st h
    rcases h with hmem | hsome
    · simp at hmem
    · simpa using hsome
  | cons e rest ih =>
    intro st h
    simp only [List.foldl_cons]
    apply ih
    rcases h with hmem | hsome
    · rw [List.map_cons] at hmem
      rcases List.mem_cons.mp hmem with h1 | h1
      · exact Or.inr (selectLoopStep_rejected_add comps reds st e cid h1.symm
          rep hc hp)
      · exact Or.inl h1
    · exact Or.inr (selectLoopStep_rejected_mono comps reds st e cid hsome)

/-- Both branches of the selector return an ok Decision whose rejected map
is the scoring-loop rejected map, provided at least one candidate was
scored. -/
theorem rankSelect_ok (run_id uuid : String) (now : Nat)
    (cands : List (String × PortfolioCandidate))
    (comps : List (String × ComplianceReport))
    (reds : List (String × RedTeamReport)) (mandate : MandateDSL)
    (h1 : cands ≠ []) :
    ∃ d, rankSelectExecute run_id uuid now cands comps reds mandate =
        Except.ok d ∧
      d.rejected_candidates = (selectFold comps reds cands).rejected := by
  have hne := selectFold_scores_ne_nil comps reds cands h1
  by_cases he : (eligibleOf (selectFold comps reds cands)).isEmpty = true
  · have hsome := argmaxFirst_isSome _ hne
    cases hA : argmaxFirst (selectFold comps reds cands).candidate_scores with
    | none => rw [hA] at hsome; simp at hsome
    | some sel =>
      simp only [rankSelectExecute, he, if_true, hA]
      exact ⟨_, rfl, rfl⟩
  · have hel : eligibleOf (selectFold comps reds cands) ≠ [] := by
      intro hnil
      rw [hnil] at he
      simp at he
    obtain ⟨k, hk⟩ := List.exists_mem_of_ne_nil _ hel
    have hk1 : k ∈ (selectFold comps reds cands).candidate_scores.map
        Prod.fst := List.mem_of_mem_filter hk
    obtain ⟨p, hp1, hp2⟩ := List.mem_map.mp hk1
    have hpf : p ∈ (selectFold comps reds cands).candidate_scores.filter
        (fun q => (eligibleOf (selectFold comps reds cands)).contains q.1) := by
      refine List.mem_filter.mpr ⟨hp1, ?_⟩
      rw [hp2]
      exact List.elem_eq_true_of_mem hk
    have hfe : (selectFold comps reds cands).candidate_scores.filter
        (fun q => (eligibleOf (selectFold comps reds cands)).contains q.1)
          ≠ [] := by
      intro hnil
      rw [hnil] at hpf
      simp at hpf
    have hsome := argmaxFirst_isSome _ hfe
    cases hA : argmaxFirst ((selectFold comps reds cands).candidate_scores.filter
        (fun q => (eligibleOf (selectFold comps reds cands)).contains q.1)) with
    | none => rw [hA] at hsome; simp at hsome
    | some sel =>
      simp only [rankSelectExecute, he, if_false, Bool.not_eq_true, hA]
      exact ⟨_, rfl, rfl⟩

/-- C7 (amended): a failed rule with category "concentration" or
"regulatory" is recorded in critical_failures and any other failed rule
in warnings — but the overall passed flag is False as soon as any rule
fails, regardless of category, and the selector puts every candidate
whose compliance report has passed = False into the rejected map, so
warning-only failures also block selection. -/
theorem c7_failure_classification_and_gating :
    (∀ (run_id uuid : String) (now : Nat) (candidate : PortfolioCandidate)
      (mandate : MandateDSL),
      (complianceExecute run_id uuid now candidate mandate).critical_failures =
        (((complianceExecute run_id uuid now candidate
            mandate).rule_results.filter (fun r =>
          !r.passed && (r.rule_category == "concentration" ||
            r.rule_category == "regulatory"))).map (·.message)) ∧
      (complianceExecute run_id uuid now candidate mandate).warnings =
        (((complianceExecute run_id uuid now candidate
            mandate).rule_results.filter (fun r =>
          !r.passed && !(r.rule_category == "concentration" ||
            r.rule_category == "regulatory"))).map (·.message)) ∧
      ((complianceExecute run_id uuid now candidate mandate).passed = true ↔
        ∀ r ∈ (complianceExecute run_id uuid now candidate
          mandate).rule_results, r.passed = true)) ∧
    (∀ (run_id uuid : String) (now : Nat)
      (cands : List (String × PortfolioCandidate))
      (comps : List (String × ComplianceReport))
      (reds : List (String × RedTeamReport)) (mandate : MandateDSL)
      (cid : String) (rep : ComplianceReport),
      alistLookup comps cid = some rep → rep.passed = false →
      cid ∈ cands.map Prod.fst →
      ∃ d, rankSelectExecute run_id uuid now cands comps reds mandate =
          Except.ok d ∧
        (alistLookup d.rejected_candidates cid).isSome) := by
  constructor
  · intro run_id uuid now candidate mandate
    refine ⟨rfl, rfl, ?_⟩
    show ((complianceRules candidate mandate).length -
      ((complianceRules candidate mandate).filter
        (fun r => r.passed)).length == 0) = true ↔ _
    rw [Nat.beq_eq_true_eq, Nat.sub_eq_zero_iff_le]
    constructor
    · intro hle r hr
      have heq : ((complianceRules candidate mandate).filter
          (fun r => r.passed)).length =
          (complianceRules candidate mandate).length :=
        Nat.le_antisymm (List.length_filter_le _ _) hle
      exact List.filter_length_eq_length.mp heq r hr
    · intro hall
      exact Nat.le_of_eq (List.filter_length_eq_length.mpr hall).symm
  · intro run_id uuid now cands comps reds mandate cid rep hc hp hmem
    have h1 : cands ≠ [] := by
      intro hnil
      rw [hnil] at hmem
      simp at hmem
    obtain ⟨d, hd, hrej⟩ := rankSelect_ok run_id uuid now cands comps reds
      mandate h1
    refine ⟨d, hd, ?_⟩
    rw [hrej]
    exact selectFold_rejected comps reds cid rep hc hp cands _ (Or.inl hmem)

/-- Witness for the compliance classification and gating theorem at the
concrete fixture input. -/
theorem c7_gating_witness :
    (alistLookup [("X", compX)] "X" = some compX ∧ compX.passed = false ∧
      "X" ∈ ([("X", candX)] : List (String × PortfolioCandidate)).map
        Prod.fst) ∧
    (∃ d, rankSelectExecute "run-1" "dw" 0 [("X", candX)] [("X", compX)]
        [("X", rtX)] mTest = Except.ok d ∧
      (alistLookup d.rejected_candidates "X").isSome) :=
  ⟨⟨by decide, by decide, by decide⟩,
    c7_failure_classification_and_gating.2 "run-1" "dw" 0 [("X", candX)]
      [("X", compX)] [("X", rtX)] mTest "X" compX (by decide) (by decide)
      (by decide)⟩

-- ---------------------------------------------------------------------------
-- C1: audit completeness
-- ---------------------------------------------------------------------------

/-- Terminal audit artifact of a concrete completed run whose blackboard
holds a mandate, a universe, fund features, two candidates, a compliance
and a red-team report per candidate, a decision and a memo. -/
def auditTest : AuditEvent :=
  auditFinalizeExecute "run-1" "a1" 9 mTest uTest
    [("X", candX), ("Y", candY)] decTest memoTest

/-- C1: the terminal AuditEvent references only the mandate, universe,
decision, memo and candidate hashes — for every input its hash-map keys
are exactly those, and on the concrete completed run the hashes of the
compliance report, the red-team report and the fund-features artifact
(artifacts produced during the run) are absent from both the collected
hash map and the audit parent hashes, contradicting the completeness
invariant. -/
theorem c1_audit_hashes_incomplete :
    (∀ (mandate : MandateDSL) (univ : Universe)
      (candidates : List (String × PortfolioCandidate)) (decision : Decision)
      (memo : ICMemo),
      (auditCollectHashes mandate univ candidates decision memo).map (·.1) =
        ["mandate", "universe", "decision", "memo"] ++
          candidates.map (fun p => "candidate_" ++ p.1)) ∧
    compX.artifact_hash ∉ auditTest.details.artifact_hashes.map (·.2) ∧
    rtX.artifact_hash ∉ auditTest.details.artifact_hashes.map (·.2) ∧
    featT.artifact_hash ∉ auditTest.details.artifact_hashes.map (·.2) ∧
    compX.artifact_hash ∉ auditTest.parent_hashes ∧
    auditTest.details.artifact_hashes.map (·.1) =
      ["mandate", "universe", "decision", "memo", "candidate_X",
        "candidate_Y"] := by
  refine ⟨?_, by decide, by decide, by decide, by decide, by decide⟩
  intro mandate univ candidates decision memo
  simp [auditCollectHashes, List.map_append, List.map_map, Function.comp]

-- ---------------------------------------------------------------------------
-- C3: event sequence numbers as observed by a subscriber
-- ---------------------------------------------------------------------------

/-- Closed form of the orchestrator emission history starting at counter
value `n`. -/
def emitFrom (run_id : String) (n : Nat) : List EmitReq → List WorkflowEvent
  | [] => []
  | r :: rs => (workflowEmit run_id n r).1 :: emitFrom run_id (n + 1) rs

theorem workflowEmitAll_eq_aux (run_id : String) :
    ∀ (reqs : List EmitReq) (acc : List WorkflowEvent) (n : Nat),
      (reqs.foldl (fun (st : List WorkflowEvent × Nat) req =>
        let (e, seq) := workflowEmit run_id st.2 req
        (st.1 ++ [e], seq)) (acc, n)).1 = acc ++ emitFrom run_id n reqs := by
  intro reqs
  induction reqs with
  | nil => intro acc n; simp [emitFrom]
  | cons r rs ih =>
    intro acc n
    simp only [List.foldl_cons]
    rw [show (workflowEmit run_id n r) = ((workflowEmit run_id n r).1,
      (workflowEmit run_id n r).2) from rfl]
    rw [ih]
    simp [emitFrom, workflowEmit, List.append_assoc]

theorem workflowEmitAll_eq (run_id : String) (reqs : List EmitReq) :
    workflowEmitAll run_id reqs = emitFrom run_id 0 reqs := by
  unfold workflowEmitAll
  rw [workflowEmitAll_eq_aux]
  simp

theorem emitFrom_sequence (run_id : String) :
    ∀ (reqs : List EmitReq) (n : Nat),
      (emitFrom run_id n reqs).map (·.sequence) =
        List.range' (n + 1) reqs.length := by
  intro reqs
  induction reqs with
  | nil => intro n; simp [emitFrom]
  | cons r rs ih =>
    intro n
    simp only [emitFrom, List.map_cons, List.length_cons, List.range'_succ]
    exact congrArg _ (ih (n + 1))

theorem emitFrom_kind (run_id : String) :
    ∀ (reqs : List EmitReq) (n : Nat),
      (emitFrom run_id n reqs).map (·.kind) = reqs.map (·.kind) := by
  intro reqs
  induction reqs with
  | nil => intro n; simp [emitFrom]
  | cons r rs ih =>
    intro n
    simp only [emitFrom, List.map_cons]
    exact congrArg _ (ih (n + 1))

theorem strictNoGaps_range' (n : Nat) : ∀ s, strictNoGaps (List.range' s n) := by
  induction n with
  | zero => intro s; simp [strictNoGaps]
  | succ m ih =>
    intro s
    rw [List.range'_succ]
    cases m with
    | zero => simp [strictNoGaps]
    | succ k =>
      rw [List.range'_succ]
      refine List.chain'_cons.mpr ⟨rfl, ?_⟩
      rw [← List.range'_succ]
      exact ih (s + 1)

theorem subscribeObserved_spec (published : List WorkflowEvent)
    (run_id : String)
    (hseq : ∀ i e, published.get? i = some e → e.sequence = i + 1)
    (hk : ∀ e ∈ published, e.kind ≠ EventKind.heartbeat) :
    ∀ (schedule : List SubStep) (pos hb : Nat),
      (((subscribeObserved published run_id schedule pos hb).filter
          (fun e => e.kind != EventKind.heartbeat)).map (·.sequence)) =
        List.range' (pos + 1)
          (((subscribeObserved published run_id schedule pos hb).filter
            (fun e => e.kind != EventKind.heartbeat)).length) ∧
      (((subscribeObserved published run_id schedule pos hb).filter
          (fun e => e.kind == EventKind.heartbeat)).map (·.sequence)) =
        List.range' (hb + 1)
          (((subscribeObserved published run_id schedule pos hb).filter
            (fun e => e.kind == EventKind.heartbeat)).length) := by
  intro schedule
  induction schedule with
  | nil => intro pos hb; simp [subscribeObserved]
  | cons step rest ih =>
    intro pos hb
    cases step with
    | deliver =>
      cases hg : published.get? pos with
      | some e =>
        have hkind : e.kind ≠ EventKind.heartbeat :=
          hk e (List.get?_mem hg)
        have hkind1 : (e.kind != EventKind.heartbeat) = true := by
          simp [hkind]
        have hkind2 : (e.kind == EventKind.heartbeat) = false := by
          simp [hkind]
        have hse : e.sequence = pos + 1 := hseq pos e hg
        obtain ⟨ih1, ih2⟩ := ih (pos + 1) hb
        constructor
        · simp only [subscribeObserved, hg, List.filter_cons, hkind1,
            if_pos, List.map_cons, List.length_cons, List.range'_succ, hse]
          exact congrArg _ ih1
        · simp only [subscribeObserved, hg, List.filter_cons, hkind2,
            Bool.false_eq_true, if_neg, not_false_iff]
          exact ih2
      | none =>
        obtain ⟨ih1, ih2⟩ := ih pos hb
        constructor
        · simpa only [subscribeObserved, hg] using ih1
        · simpa only [subscribeObserved, hg] using ih2
    | heartbeat =>
      have hkind1 : ((heartbeatEvent run_id (hb + 1)).kind !=
          EventKind.heartbeat) = false := by simp [heartbeatEvent]
      have hkind2 : ((heartbeatEvent run_id (hb + 1)).kind ==
          EventKind.heartbeat) = true := by simp [heartbeatEvent]
      obtain ⟨ih1, ih2⟩ := ih pos (hb + 1)
      constructor
      · simp only [subscribeObserved, List.filter_cons, hkind1,
          Bool.false_eq_true, if_neg, not_false_iff]
        exact ih1
      · simp only [subscribeObserved, List.filter_cons, hkind2, if_pos,
          List.map_cons, List.length_cons, List.range'_succ, heartbeatEvent]
        exact congrArg _ ih2

/-- Every event of the orchestrator emission history carries the run's
id and a nonzero sequence, so `EventBus.publish` passes it through
without restamping. -/
theorem emitFrom_mem_shape (run_id : String) :
    ∀ (reqs : List EmitReq) (n : Nat), ∀ e ∈ emitFrom run_id n reqs,
      e.run_id = run_id ∧ e.sequence ≠ 0 := by
  intro reqs
  induction reqs with
  | nil => intro n e he; simp [emitFrom] at he
  | cons r rs ih =>
    intro n e he
    simp only [emitFrom] at he
    rcases List.mem_cons.mp he with h1 | h2
    · rw [h1]
      exact ⟨rfl, by simp [workflowEmit]⟩
    · exact ih (n + 1) e h2

/-- Publishing an already-stamped event (nonzero sequence) appends it to
the run's stream and leaves the bus counter untouched. -/
theorem eventBusPublish_nonzero_step (run_id : String) (c : Nat)
    (acc : List WorkflowEvent) (e : WorkflowEvent)
    (hrid : e.run_id = run_id) (hseq : e.sequence ≠ 0) :
    eventBusPublish
        { sequence_counters := [(run_id, c)], streams := [(run_id, acc)] }
        e =
      { sequence_counters := [(run_id, c)],
        streams := [(run_id, acc ++ [e])] } := by
  simp [eventBusPublish, hseq, hrid, alistLookup, alistSet]

theorem eventBusPublish_fold_nonzero (run_id : String) :
    ∀ (es : List WorkflowEvent),
      (∀ e ∈ es, e.run_id = run_id ∧ e.sequence ≠ 0) →
      ∀ (c : Nat) (acc : List WorkflowEvent),
        es.foldl eventBusPublish
            { sequence_counters := [(run_id, c)],
              streams := [(run_id, acc)] } =
          { sequence_counters := [(run_id, c)],
            streams := [(run_id, acc ++ es)] } := by
  intro es
  induction es with
  | nil => intro _ c acc; simp
  | cons e rest ih =>
    intro h c acc
    obtain ⟨hrid, hseq⟩ := h e (List.mem_cons_self e rest)
    rw [List.foldl_cons,
      eventBusPublish_nonzero_step run_id c acc e hrid hseq,
      ih (fun x hx => h x (List.mem_cons_of_mem e hx)) c (acc ++ [e])]
    simp

/-- The run's published stream on the success path of
`execute_workflow`: the bus stamps RUN_STARTED with its counter value 1,
the orchestrator events pass through unchanged, and RUN_COMPLETED is
stamped with bus counter value 2. -/
theorem executeWorkflowPublished_eq (run_id : String)
    (reqs : List EmitReq) :
    executeWorkflowPublished run_id reqs =
      { runStartedEvent run_id with sequence := 1 } ::
        (workflowEmitAll run_id reqs ++
          [{ runCompletedEvent run_id with sequence := 2 }]) := by
  have hshape : ∀ e ∈ workflowEmitAll run_id reqs,
      e.run_id = run_id ∧ e.sequence ≠ 0 := by
    intro e he
    rw [workflowEmitAll_eq] at he
    exact emitFrom_mem_shape run_id reqs 0 e he
  have h1 : eventBusPublish {} (runStartedEvent run_id) =
      { sequence_counters := [(run_id, 1)],
        streams := [(run_id,
          [{ runStartedEvent run_id with sequence := 1 }])] } := by
    simp [eventBusPublish, runStartedEvent, alistLookup, alistSet]
  have h3 : eventBusPublish
      { sequence_counters := [(run_id, 1)],
        streams := [(run_id,
          [{ runStartedEvent run_id with sequence := 1 }] ++
            workflowEmitAll run_id reqs)] }
      (runCompletedEvent run_id) =
      { sequence_counters := [(run_id, 2)],
        streams := [(run_id,
          ([{ runStartedEvent run_id with sequence := 1 }] ++
            workflowEmitAll run_id reqs) ++
            [{ runCompletedEvent run_id with sequence := 2 }])] } := by
    simp [eventBusPublish, runCompletedEvent, alistLookup, alistSet]
  simp only [executeWorkflowPublished]
  rw [h1, eventBusPublish_fold_nonzero run_id _ hshape 1 _, h3]
  simp [alistLookup]

/-- A subscriber whose scheduler delivers `k` times observes the first
`k` pending stream events. -/
theorem subscribeObserved_replicate_deliver
    (published : List WorkflowEvent) (run_id : String) :
    ∀ (k pos hb : Nat),
      subscribeObserved published run_id
          (List.replicate k SubStep.deliver) pos hb =
        (published.drop pos).take k := by
  intro k
  induction k with
  | zero => intro pos hb; simp [subscribeObserved]
  | succ m ih =>
    intro pos hb
    rw [List.replicate_succ]
    cases hg : published.get? pos with
    | some e =>
      have hlt : pos < published.length := (List.get?_eq_some.mp hg).1
      have hdrop : published.drop pos = e :: published.drop (pos + 1) := by
        rw [List.drop_eq_getElem_cons hlt]
        congr 1
        have h2 := (List.get?_eq_some.mp hg).2
        simpa using h2
      simp only [subscribeObserved, hg]
      rw [ih (pos + 1) hb, hdrop, List.take_succ_cons]
    | none =>
      have hge : published.length ≤ pos := List.get?_eq_none.mp hg
      have hdrop : published.drop pos = [] := List.drop_eq_nil_of_le hge
      simp only [subscribeObserved, hg]
      rw [ih pos hb, hdrop]
      simp

/-- C3 (amended): every orchestrator-emitted event carries a per-run
sequence assigned at emission by the workflow's single-writer counter —
gapless 1..N in emission order — but the stream a subscriber to the run
observes is NOT strictly increasing with no gaps, heartbeats aside:
`execute_workflow` publishes RUN_STARTED and RUN_COMPLETED with
`sequence` left at its default 0 and `EventBus.publish` stamps those
from its own independent per-run counter, so a subscriber reading the
whole stream observes sequences 1, 1, 2, ..., N, 2 — RUN_STARTED
duplicates the first orchestrator sequence and RUN_COMPLETED arrives out
of order on every run with at least one orchestrator emission (and
heartbeats carry a third, per-subscription counter). -/
theorem c3_published_sequences_gapless_heartbeats_separate
    (run_id : String) (reqs : List EmitReq) :
    ((workflowEmitAll run_id reqs).map (·.sequence) =
      List.range' 1 reqs.length) ∧
    ((executeWorkflowPublished run_id reqs).map (·.sequence) =
      1 :: (List.range' 1 reqs.length ++ [2])) ∧
    ((subscribeObserved (executeWorkflowPublished run_id reqs) run_id
        (List.replicate (reqs.length + 2) SubStep.deliver) 0 0).map
          (·.sequence) =
      1 :: (List.range' 1 reqs.length ++ [2])) ∧
    (reqs ≠ [] →
      ¬ strictNoGaps ((subscribeObserved
          (executeWorkflowPublished run_id reqs) run_id
          (List.replicate (reqs.length + 2) SubStep.deliver) 0 0).map
            (·.sequence))) := by
  have hmap : (workflowEmitAll run_id reqs).map (·.sequence) =
      List.range' 1 reqs.length := by
    rw [workflowEmitAll_eq]
    exact emitFrom_sequence run_id reqs 0
  have hevlen : (workflowEmitAll run_id reqs).length = reqs.length := by
    have hc := congrArg List.length hmap
    simpa using hc
  have hpub := executeWorkflowPublished_eq run_id reqs
  have hseqmap : (executeWorkflowPublished run_id reqs).map (·.sequence) =
      1 :: (List.range' 1 reqs.length ++ [2]) := by
    rw [hpub]
    simp only [List.map_cons, List.map_append, List.map_nil, hmap]
  have hplen : (executeWorkflowPublished run_id reqs).length =
      reqs.length + 2 := by
    have hc := congrArg List.length hseqmap
    simp at hc
    omega
  have hobs : subscribeObserved (executeWorkflowPublished run_id reqs)
      run_id (List.replicate (reqs.length + 2) SubStep.deliver) 0 0 =
      executeWorkflowPublished run_id reqs := by
    rw [subscribeObserved_replicate_deliver, List.drop_zero, ← hplen,
      List.take_length]
  refine ⟨hmap, hseqmap, by rw [hobs]; exact hseqmap, ?_⟩
  intro hne hsng
  rw [hobs, hseqmap] at hsng
  obtain ⟨r, rs, rfl⟩ := List.exists_cons_of_ne_nil hne
  rw [List.length_cons, List.range'_succ, List.cons_append] at hsng
  have h11 := (List.chain'_cons.mp hsng).1
  omega

/-- Two orchestrator emit calls of the concrete counterexample run. -/
def cexReqs : List EmitReq :=
  [{ kind := .stage_started, message := "Starting Load Mandate Template",
     stage_id := some "load_mandate" },
   { kind := .stage_completed, message := "Load Mandate Template completed",
     stage_id := some "load_mandate" }]

/-- What the subscriber observes when the two published events are
delivered and the idle timer then fires once. -/
def cexObserved : List WorkflowEvent :=
  subscribeObserved (workflowEmitAll "run-1" cexReqs) "run-1"
    [SubStep.deliver, SubStep.deliver, SubStep.heartbeat] 0 0

/-- C3 counterexample: a subscriber that receives the two published
events and then a heartbeat observes sequence numbers 1, 2, 1 — the
heartbeat carries its own counter value 1 — so the sequence numbers
observed by a subscriber, heartbeats included, are not strictly
increasing. -/
theorem c3_counterexample_heartbeat_resets_sequence :
    cexObserved.map (·.sequence) = [1, 2, 1] ∧
    ¬ strictNoGaps (cexObserved.map (·.sequence)) := by
  constructor
  · decide
  · intro hchain
    rw [show cexObserved.map (·.sequence) = [1, 2, 1] from by decide] at hchain
    have := (List.chain'_cons.mp hchain).2
    have h21 := (List.chain'_cons.mp this).1
    omega

/-- Witness for the amended event-ordering theorem at the concrete
two-emission run: the non-empty hypothesis holds there, and the
theorem then shows the stream a subscriber observes is not gapless. -/
theorem c3_gapless_witness :
    cexReqs ≠ [] ∧
    ¬ strictNoGaps ((subscribeObserved
        (executeWorkflowPublished "run-1" cexReqs) "run-1"
        (List.replicate (cexReqs.length + 2) SubStep.deliver) 0 0).map
          (·.sequence)) :=
  ⟨by decide,
    (c3_published_sequences_gapless_heartbeats_separate "run-1"
      cexReqs).2.2.2 (by decide)⟩

-- ---------------------------------------------------------------------------
-- C6: bounded repair loop
-- ---------------------------------------------------------------------------

theorem repairAttempts_spec (run_id : String) (env : RepairEnv)
    (mandate : MandateDSL) :
    ∀ (remaining : Nat)
      (current : PortfolioCandidate × Option ComplianceReport ×
        Option RedTeamReport) (attempt : Nat),
      ((repairAttempts run_id env mandate current attempt remaining).2.length
        ≤ remaining) ∧
      (∀ it ∈ (repairAttempts run_id env mandate current attempt
        remaining).2.dropLast, it.bothPass = false) ∧
      (match (repairAttempts run_id env mandate current attempt
          remaining).2.getLast? with
       | some it =>
         (repairAttempts run_id env mandate current attempt remaining).1 =
           ⟨some it.candidate, some it.compliance, some it.redteam⟩
       | none =>
         (repairAttempts run_id env mandate current attempt remaining).1 =
           ⟨some current.1, current.2.1, current.2.2⟩) := by
  intro remaining
  induction remaining with
  | zero =>
    intro current attempt
    refine ⟨Nat.le_refl 0, ?_, ?_⟩
    · intro it hit
      simp [repairAttempts] at hit
    · simp [repairAttempts]
  | succ rem ih =>
    intro current attempt
    cases hap : applyRepair run_id (env.repairUuid attempt) (env.now attempt)
        current.1 current.2.1 current.2.2 mandate with
    | none =>
      simp only [repairAttempts, hap]
      obtain ⟨l1, l2, l3⟩ := ih current (attempt + 1)
      exact ⟨Nat.le_succ_of_le l1, l2, l3⟩
    | some repaired =>
      by_cases hpass : ((complianceExecute run_id (env.compUuid attempt)
          (env.now attempt) repaired mandate).passed &&
        (redteamExecute run_id (env.redUuid attempt) (env.now attempt)
          repaired (42 + attempt)).passed) = true
      · simp only [repairAttempts, hap, hpass, if_pos]
        refine ⟨by simp, ?_, by simp⟩
        intro it hit
        simp at hit
      · simp only [repairAttempts, hap, hpass, if_neg, Bool.not_eq_true]
        obtain ⟨l1, l2, l3⟩ := ih (repaired,
          some (complianceExecute run_id (env.compUuid attempt)
            (env.now attempt) repaired mandate),
          some (redteamExecute run_id (env.redUuid attempt) (env.now attempt)
            repaired (42 + attempt))) (attempt + 1)
        set rest := repairAttempts run_id env mandate (repaired,
          some (complianceExecute run_id (env.compUuid attempt)
            (env.now attempt) repaired mandate),
          some (redteamExecute run_id (env.redUuid attempt) (env.now attempt)
            repaired (42 + attempt))) (attempt + 1) rem with hrest_def
        refine ⟨?_, ?_, ?_⟩
        · simpa using Nat.succ_le_succ l1
        · intro it hit
          cases hrt : rest.2 with
          | nil =>
            rw [hrt] at hit
            simp at hit
          | cons x xs =>
            rw [hrt] at hit
            rw [List.dropLast_cons₂] at hit
            rcases List.mem_cons.mp hit with h1 | h1
            · rw [h1]
              simp only [RepairIter.bothPass]
              exact (Bool.not_eq_true _).mp hpass
            · apply l2
              rw [hrt]
              exact h1
        · cases hrt : rest.2 with
          | nil =>
            rw [hrt] at l3
            simp only [List.getLast?_nil] at l3
            simp only [List.getLast?_singleton]
            simpa using l3
          | cons x xs =>
            rw [List.getLast?_cons_cons]
            rw [hrt] at l3
            cases hgl : (x :: xs).getLast? with
            | none => simp at hgl
            | some it =>
              rw [hgl] at l3
              simpa using l3

/-- C6: for every candidate entering the repair loop with a failing
compliance or red-team report, the loop performs at most 3 effective
repair iterations, each re-running both checks on the repaired
candidate; it stops early the moment both re-run checks pass (only the
final recorded iteration may pass); and the returned value is always a
candidate — the last repaired one with its last report pair when any
repair was applied, the original (still failing) candidate and reports
otherwise — never no candidate. -/
theorem c6_repair_bounded_early_stop_never_none (run_id : String)
    (env : RepairEnv) (candidate : PortfolioCandidate)
    (compliance_report : Option ComplianceReport)
    (redteam_report : Option RedTeamReport) (mandate : MandateDSL)
    (h : (compliance_report.all (fun c => c.passed) &&
      redteam_report.all (fun r => r.passed)) = false) :
    ((repairLoopExecute run_id env candidate compliance_report
      redteam_report mandate 3).1.candidate.isSome = true) ∧
    ((repairLoopExecute run_id env candidate compliance_report
      redteam_report mandate 3).2.length ≤ 3) ∧
    (∀ it ∈ (repairLoopExecute run_id env candidate compliance_report
      redteam_report mandate 3).2.dropLast, it.bothPass = false) ∧
    (match (repairLoopExecute run_id env candidate compliance_report
        redteam_report mandate 3).2.getLast? with
     | some it =>
       (repairLoopExecute run_id env candidate compliance_report
         redteam_report mandate 3).1 =
         ⟨some it.candidate, some it.compliance, some it.redteam⟩
     | none =>
       (repairLoopExecute run_id env candidate compliance_report
         redteam_report mandate 3).1 =
         ⟨some candidate, compliance_report, redteam_report⟩) := by
  have hcond : ∀ (o : Option ComplianceReport) (p : Option RedTeamReport),
      (o.all (fun c => c.passed) && p.all (fun r => r.passed)) = false →
      ((match o with | none => true | some c => c.passed) &&
        (match p with | none => true | some r => r.passed)) = false := by
    intro o p hh
    cases o <;> cases p <;> exact hh
  have heq : repairLoopExecute run_id env candidate compliance_report
      redteam_report mandate 3 =
    repairAttempts run_id env mandate
      (candidate, compliance_report, redteam_report) 1 3 := by
    simp only [repairLoopExecute]
    rw [if_neg]
    intro hT
    rw [hcond compliance_report redteam_report h] at hT
    simp at hT
  rw [heq]
  obtain ⟨l1, l2, l3⟩ := repairAttempts_spec run_id env mandate 3
    (candidate, compliance_report, redteam_report) 1
  refine ⟨?_, l1, l2, l3⟩
  cases hgl : (repairAttempts run_id env mandate
      (candidate, compliance_report, redteam_report) 1 3).2.getLast? with
  | some it =>
    rw [hgl] at l3
    rw [l3]
    rfl
  | none =>
    rw [hgl] at l3
    rw [l3]
    rfl

/-- Witness for the repair-loop theorem: the concrete candidate whose
compliance report fails only on the diversification rule enters the
loop, no mechanical repair applies, and the original failing pair is
returned after the bounded attempts. -/
theorem c6_repair_witness :
    (((some compD).all (fun c => c.passed) &&
      (none : Option RedTeamReport).all (fun r => r.passed)) = false) ∧
    (((repairLoopExecute "run-1" testEnv candD (some compD) none mTest
      3).1.candidate.isSome = true) ∧
    ((repairLoopExecute "run-1" testEnv candD (some compD) none mTest
      3).2.length ≤ 3) ∧
    (∀ it ∈ (repairLoopExecute "run-1" testEnv candD (some compD) none mTest
      3).2.dropLast, it.bothPass = false) ∧
    (match (repairLoopExecute "run-1" testEnv candD (some compD) none mTest
        3).2.getLast? with
     | some it =>
       (repairLoopExecute "run-1" testEnv candD (some compD) none mTest
         3).1 = ⟨some it.candidate, some it.compliance, some it.redteam⟩
     | none =>
       (repairLoopExecute "run-1" testEnv candD (some compD) none mTest
         3).1 = ⟨some candD, some compD, none⟩)) :=
  ⟨by decide, c6_repair_bounded_early_stop_never_none "run-1" testEnv candD
    (some compD) none mTest (by decide)⟩

-- ---------------------------------------------------------------------------
-- C9: stage-5 fan-out
-- ---------------------------------------------------------------------------

def candA9 : PortfolioCandidate :=
  { candX with
    artifact_id := "candidate-A-a9"
    candidate_id := "A" }

def candB9 : PortfolioCandidate :=
  { candY with
    artifact_id := "candidate-B-b9"
    candidate_id := "B" }

/-- Compliance check that raises for candidate A and behaves as the
compliance executor for everyone else. -/
def ccBoom : PortfolioCandidate → Except String ComplianceReport :=
  fun c =>
    if c.candidate_id == "A" then Except.error "boom"
    else Except.ok (complianceExecute "run-1" "cb" 0 c mTest)

/-- Red-team check that always returns a passing report. -/
def rcOk : PortfolioCandidate → Except String RedTeamReport :=
  fun c => Except.ok (rtPass c "rr")

/-- C9 counterexample: when candidate A's compliance check raises, A's
red-team check never runs (no red-team report is recorded for A) and the
exception propagates through the gather to the orchestrator, failing the
stage — while candidate B's unit still completes with both reports. The
six check units therefore do not have all-complete semantics: the two
checks of one candidate are sequential, and a compliance exception
aborts that candidate's red-team check. -/
theorem c9_counterexample_compliance_error_skips_redteam :
    ((alistLookup (verifyCandidatesStage ccBoom rcOk
        [("A", candA9), ("B", candB9)]).1 "A").map
      (fun r => (r.compliance.isSome, r.redteam.isSome, r.error))) =
      some (false, false, some "boom") ∧
    ((alistLookup (verifyCandidatesStage ccBoom rcOk
        [("A", candA9), ("B", candB9)]).1 "B").map
      (fun r => (r.compliance.isSome, r.redteam.isSome, r.error))) =
      some (true, true, none) ∧
    (verifyCandidatesStage ccBoom rcOk
      [("A", candA9), ("B", candB9)]).2 = some "boom" := by decide

/-- C9 (amended): stage 5 launches one unit per candidate; within a unit
the compliance check runs first and the red-team check only after it
returns, so a compliance exception yields a unit with no red-team report
that carries the exception (which gather re-raises, so the stage
outcome is an error exactly when some unit erred); a unit whose two
checks return records both reports; and each unit's result depends only
on the check behavior at its own candidate, so a failure in one unit
does not change the results recorded for the others. -/
theorem c9_fanout_sequential_checks_unit_isolation
    (compCheck : PortfolioCandidate → Except String ComplianceReport)
    (redCheck : PortfolioCandidate → Except String RedTeamReport)
    (cid : String) (c : PortfolioCandidate) :
    (∀ e, compCheck c = Except.error e →
      verifySingleCandidate compCheck redCheck cid c =
        ⟨none, none, some e, [(EventKind.compliance_check, some cid)]⟩) ∧
    (∀ cr rr, compCheck c = Except.ok cr → redCheck c = Except.ok rr →
      (verifySingleCandidate compCheck redCheck cid c).compliance = some cr ∧
      (verifySingleCandidate compCheck redCheck cid c).redteam = some rr ∧
      (verifySingleCandidate compCheck redCheck cid c).error = none) ∧
    (∀ (compCheck2 : PortfolioCandidate → Except String ComplianceReport)
      (redCheck2 : PortfolioCandidate → Except String RedTeamReport),
      compCheck2 c = compCheck c → redCheck2 c = redCheck c →
      verifySingleCandidate compCheck2 redCheck2 cid c =
        verifySingleCandidate compCheck redCheck cid c) ∧
    (∀ (cands : List (String × PortfolioCandidate)),
      (verifyCandidatesStage compCheck redCheck cands).2 = none ↔
        ∀ r ∈ (verifyCandidatesStage compCheck redCheck cands).1,
          r.2.error = none) := by
  refine ⟨?_, ?_, ?_, ?_⟩
  · intro e he
    simp [verifySingleCandidate, he]
  · intro cr rr hc hr
    refine ⟨?_, ?_, ?_⟩ <;> simp [verifySingleCandidate, hc, hr]
  · intro compCheck2 redCheck2 h1 h2
    unfold verifySingleCandidate
    rw [h1, h2]
  · intro cands
    show ((cands.map (fun p =>
      (p.1, verifySingleCandidate compCheck redCheck p.1 p.2))).filterMap
        (·.2.error)).head? = none ↔ _
    rw [List.head?_eq_none_iff, List.filterMap_eq_nil]
    constructor
    · intro hall r hr
      exact hall r hr
    · intro hall r hr
      exact hall r hr

/-- Witness for the fan-out theorem at the concrete raising compliance
check: applying the first and second components at candidates A and B. -/
theorem c9_fanout_witness :
    (ccBoom candA9 = Except.error "boom" ∧
      ccBoom candB9 = Except.ok (complianceExecute "run-1" "cb" 0 candB9
        mTest) ∧
      rcOk candB9 = Except.ok (rtPass candB9 "rr")) ∧
    verifySingleCandidate ccBoom rcOk "A" candA9 =
      ⟨none, none, some "boom", [(EventKind.compliance_check, some "A")]⟩ ∧
    ((verifySingleCandidate ccBoom rcOk "B" candB9).compliance =
        some (complianceExecute "run-1" "cb" 0 candB9 mTest) ∧
      (verifySingleCandidate ccBoom rcOk "B" candB9).redteam =
        some (rtPass candB9 "rr") ∧
      (verifySingleCandidate ccBoom rcOk "B" candB9).error = none) :=
  ⟨⟨rfl, rfl, rfl⟩,
    (c9_fanout_sequential_checks_unit_isolation ccBoom rcOk "A" candA9).1
      "boom" rfl,
    (c9_fanout_sequential_checks_unit_isolation ccBoom rcOk "B" candB9).2.1
      (complianceExecute "run-1" "cb" 0 candB9 mTest) (rtPass candB9 "rr")
      rfl rfl⟩

-- ---------------------------------------------------------------------------
-- C10: unconditional recording and CANDIDATE_REPAIRED emission
-- ---------------------------------------------------------------------------

theorem alistLookup_set_self {α : Type} (l : List (String × α)) (k : String)
    (v : α) :
    (alistLookup l k).isSome → alistLookup (alistSet l k v) k = some v := by
  induction l with
  | nil => intro h; simp [alistLookup] at h
  | cons x xs ih =>
    intro h
    rw [alistLookup_cons] at h
    by_cases hx : (x.1 == k) = true
    · simp only [alistSet, List.map_cons, hx, if_pos]
      rw [alistLookup_cons]
      simp
    · rw [if_neg hx] at h
      simp only [alistSet, List.map_cons, hx, Bool.false_eq_true, if_neg,
        not_false_iff]
      rw [alistLookup_cons, if_neg hx]
      exact ih h

theorem alistLookup_insert_self {α : Type} (l : List (String × α))
    (k : String) (v : α) :
    alistLookup (alistInsert l k v) k = some v := by
  unfold alistInsert
  by_cases h : (alistLookup l k).isSome = true
  · rw [if_pos h]
    exact alistLookup_set_self l k v h
  · rw [if_neg h]
    induction l with
    | nil => simp [alistLookup]
    | cons x xs ih =>
      rw [List.cons_append, alistLookup_cons]
      by_cases hx : (x.1 == k) = true
      · exfalso
        apply h
        rw [alistLookup_cons, if_pos hx]
        rfl
      · rw [if_neg hx]
        apply ih
        intro hxs
        apply h
        rw [alistLookup_cons, if_neg hx]
        exact hxs

theorem alistLookup_set_ne {α : Type} (l : List (String × α))
    (k k' : String) (v : α) (h : k' ≠ k) :
    alistLookup (alistSet l k v) k' = alistLookup l k' := by
  induction l with
  | nil => simp [alistSet, alistLookup]
  | cons x xs ih =>
    by_cases hx : (x.1 == k) = true
    · simp only [alistSet, List.map_cons, hx, if_pos]
      rw [alistLookup_cons, alistLookup_cons]
      have hk : (k == k') = false := by
        simp only [beq_eq_false_iff_ne, ne_eq]
        intro hkk
        exact h hkk.symm
      have hx1 : (x.1 == k') = false := by
        have : x.1 = k := by simpa using hx
        rw [this]
        exact hk
      rw [hk, hx1]
      simp only [Bool.false_eq_true, if_neg, not_false_iff]
      exact ih
    · simp only [alistSet, List.map_cons, hx, Bool.false_eq_true, if_neg,
        not_false_iff]
      rw [alistLookup_cons, alistLookup_cons]
      by_cases hx' : (x.1 == k') = true
      · rw [if_pos hx', if_pos hx']
      · rw [if_neg hx', if_neg hx']
        exact ih

theorem alistLookup_insert_ne {α : Type} (l : List (String × α))
    (k k' : String) (v : α) (h : k' ≠ k) :
    alistLookup (alistInsert l k v) k' = alistLookup l k' := by
  unfold alistInsert
  by_cases hs : (alistLookup l k).isSome = true
  · rw [if_pos hs]
    exact alistLookup_set_ne l k k' v h
  · rw [if_neg hs]
    induction l with
    | nil =>
      simp only [List.nil_append]
      rw [alistLookup_cons]
      have hk : (k == k') = false := by
        simp only [beq_eq_false_iff_ne, ne_eq]
        intro hkk
        exact h hkk.symm
      rw [hk]
      simp [alistLookup]
    | cons x xs ih =>
      rw [List.cons_append, alistLookup_cons, alistLookup_cons]
      by_cases hx' : (x.1 == k') = true
      · rw [if_pos hx', if_pos hx']
      · rw [if_neg hx', if_neg hx']
        apply ih
        intro hxs
        apply hs
        rw [alistLookup_cons]
        by_cases hx : (x.1 == k) = true
        · rw [if_pos hx]; rfl
        · rw [if_neg hx]; exact hxs

/-- A repair-stage step for an entry with a different key changes nothing
observable at key `cid` and only appends events. -/
theorem repairStageStep_ne (run_id : String) (env : String → RepairEnv)
    (mandate : MandateDSL) (st : RepairStageResult)
    (e : String × PortfolioCandidate) (cid : String) (h : e.1 ≠ cid) :
    alistLookup (repairStageStep run_id env mandate st e).candidates cid =
        alistLookup st.candidates cid ∧
    alistLookup (repairStageStep run_id env mandate st
        e).compliance_reports cid = alistLookup st.compliance_reports cid ∧
    alistLookup (repairStageStep run_id env mandate st e).redteam_reports
        cid = alistLookup st.redteam_reports cid ∧
    (∀ ev ∈ st.events,
      ev ∈ (repairStageStep run_id env mandate st e).events) := by
  unfold repairStageStep
  by_cases hf : reportsFailing (alistLookup st.compliance_reports e.1)
      (alistLookup st.redteam_reports e.1) = true
  · simp only [hf, if_pos]
    cases hcand : (repairLoopExecute run_id (env e.1) e.2
        (alistLookup st.compliance_reports e.1)
        (alistLookup st.redteam_reports e.1) mandate 3).1.candidate with
    | some repaired =>
      refine ⟨?_, ?_, ?_, ?_⟩
      · exact alistLookup_insert_ne _ _ _ _ (fun hc => h hc.symm)
      · cases (repairLoopExecute run_id (env e.1) e.2
            (alistLookup st.compliance_reports e.1)
            (alistLookup st.redteam_reports e.1) mandate 3).1.compliance with
        | some c =>
          exact alistLookup_insert_ne _ _ _ _ (fun hc => h hc.symm)
        | none => rfl
      · cases (repairLoopExecute run_id (env e.1) e.2
            (alistLookup st.compliance_reports e.1)
            (alistLookup st.redteam_reports e.1) mandate 3).1.redteam with
        | some r =>
          exact alistLookup_insert_ne _ _ _ _ (fun hc => h hc.symm)
        | none => rfl
      · intro ev hev
        exact List.mem_append_left _ (List.mem_append_left _ hev)
    | none =>
      refine ⟨?_, ?_, ?_, ?_⟩
      · trivial
      · trivial
      · trivial
      · intro ev hev
        exact List.mem_append_left _ hev
  · simp only [hf, Bool.false_eq_true, if_neg, not_false_iff]
    refine ⟨?_, ?_, ?_, ?_⟩
    · trivial
    · trivial
    · trivial
    · intro ev hev
      exact hev

/-- The whole remaining fold preserves the records at a key none of the
remaining entries carries, and never drops events. -/
theorem repairStage_fold_preserve (run_id : String)
    (env : String → RepairEnv) (mandate : MandateDSL) (cid : String) :
    ∀ (todo : List (String × PortfolioCandidate)) (st : RepairStageResult),
      (∀ k ∈ todo.map Prod.fst, k ≠ cid) →
      alistLookup ((todo.foldl (repairStageStep run_id env mandate)
          st)).candidates cid = alistLookup st.candidates cid ∧
      (∀ ev ∈ st.events,
        ev ∈ ((todo.foldl (repairStageStep run_id env mandate)
          st)).events) := by
  intro todo
  induction todo with
  | nil => intro st h; exact ⟨rfl, fun ev hev => hev⟩
  | cons e rest ih =>
    intro st h
    have he : e.1 ≠ cid := h e.1 (by simp)
    have hrest : ∀ k ∈ rest.map Prod.fst, k ≠ cid := by
      intro k hk
      exact h k (by simp [hk])
    obtain ⟨p1, p2, p3, p4⟩ := repairStageStep_ne run_id env mandate st e
      cid he
    obtain ⟨q1, q2⟩ := ih (repairStageStep run_id env mandate st e) hrest
    simp only [List.foldl_cons]
    exact ⟨by rw [q1, p1], fun ev hev => q2 ev (p4 ev hev)⟩

theorem repairAttempts_candidate_isSome (run_id : String) (env : RepairEnv)
    (mandate : MandateDSL)
    (cur : PortfolioCandidate × Option ComplianceReport ×
      Option RedTeamReport) (attempt n : Nat) :
    (repairAttempts run_id env mandate cur attempt n).1.candidate.isSome =
      true := by
  obtain ⟨_, _, l3⟩ := repairAttempts_spec run_id env mandate n cur attempt
  cases hgl : (repairAttempts run_id env mandate cur attempt n).2.getLast?
    with
  | some it =>
    rw [hgl] at l3
    rw [l3]
    rfl
  | none =>
    rw [hgl] at l3
    rw [l3]
    rfl

/-- The repair executor returns a candidate (never None) on every input
and every attempt budget. -/
theorem repairLoopExecute_candidate_isSome (run_id : String)
    (env : RepairEnv) (candidate : PortfolioCandidate)
    (comp : Option ComplianceReport) (red : Option RedTeamReport)
    (mandate : MandateDSL) (n : Nat) :
    (repairLoopExecute run_id env candidate comp red mandate
      n).1.candidate.isSome = true := by
  unfold repairLoopExecute
  repeat' split
  all_goals first
    | rfl
    | (dsimp only
       split
       · rfl
       · exact repairAttempts_candidate_isSome _ _ _ _ _ _)

/-- Processing the failing entry itself: the CANDIDATE_REPAIRED event is
appended and the returned candidate recorded. -/
theorem repairStageStep_process (run_id : String) (env : String → RepairEnv)
    (mandate : MandateDSL) (st : RepairStageResult)
    (e : String × PortfolioCandidate)
    (hfail : reportsFailing (alistLookup st.compliance_reports e.1)
      (alistLookup st.redteam_reports e.1) = true) :
    (EventKind.candidate_repaired, some e.1) ∈
        (repairStageStep run_id env mandate st e).events ∧
    (∀ rc, (repairLoopExecute run_id (env e.1) e.2
        (alistLookup st.compliance_reports e.1)
        (alistLookup st.redteam_reports e.1) mandate 3).1.candidate =
          some rc →
      alistLookup (repairStageStep run_id env mandate st e).candidates e.1 =
        some rc) := by
  unfold repairStageStep
  simp only [hfail, if_pos]
  cases hcand : (repairLoopExecute run_id (env e.1) e.2
      (alistLookup st.compliance_reports e.1)
      (alistLookup st.redteam_reports e.1) mandate 3).1.candidate with
  | some repaired =>
    constructor
    · exact List.mem_append_right _ (by simp)
    · intro rc hrc
      have h2 : rc = repaired := (Option.some.inj hrc).symm
      rw [h2]
      exact alistLookup_insert_self _ _ _
  | none =>
    constructor
    · exfalso
      have hs := repairLoopExecute_candidate_isSome run_id (env e.1) e.2
        (alistLookup st.compliance_reports e.1)
        (alistLookup st.redteam_reports e.1) mandate 3
      rw [hcand] at hs
      simp at hs
    · intro rc hrc
      simp at hrc

/-- The main fold lemma for the orchestrator repair stage. -/
theorem repairStage_fold_process (run_id : String)
    (env : String → RepairEnv) (mandate : MandateDSL) (cid : String) :
    ∀ (todo : List (String × PortfolioCandidate)) (st : RepairStageResult)
      (candidate : PortfolioCandidate),
      (todo.map Prod.fst).Nodup →
      (cid, candidate) ∈ todo →
      ∀ (co : Option ComplianceReport) (ro : Option RedTeamReport),
        alistLookup st.compliance_reports cid = co →
        alistLookup st.redteam_reports cid = ro →
        reportsFailing co ro = true →
        (EventKind.candidate_repaired, some cid) ∈
            ((todo.foldl (repairStageStep run_id env mandate) st)).events ∧
        (∀ rc, (repairLoopExecute run_id (env cid) candidate co ro mandate
            3).1.candidate = some rc →
          alistLookup ((todo.foldl (repairStageStep run_id env mandate)
            st)).candidates cid = some rc) := by
  intro todo
  induction todo with
  | nil =>
    intro st candidate hnd hmem
    simp at hmem
  | cons e rest ih =>
    intro st candidate hnd hmem co ro hco hro hfail
    rw [List.map_cons] at hnd
    have hnd_rest : (rest.map Prod.fst).Nodup := hnd.of_cons
    have hnotin : e.1 ∉ rest.map Prod.fst := (List.nodup_cons.mp hnd).1
    rcases List.mem_cons.mp hmem with hhead | htail
    · have he1 : e.1 = cid := by rw [← hhead]
      have he2 : e.2 = candidate := by rw [← hhead]
      have hfail' : reportsFailing (alistLookup st.compliance_reports e.1)
          (alistLookup st.redteam_reports e.1) = true := by
        rw [he1, hco, hro]; exact hfail
      obtain ⟨pe, pc⟩ := repairStageStep_process run_id env mandate st e
        hfail'
      have hrest_ne : ∀ k ∈ rest.map Prod.fst, k ≠ cid := by
        intro k hk hkc
        apply hnotin
        rw [he1, ← hkc]
        exact hk
      obtain ⟨q1, q2⟩ := repairStage_fold_preserve run_id env mandate cid
        rest (repairStageStep run_id env mandate st e) hrest_ne
      simp only [List.foldl_cons]
      constructor
      · apply q2
        rw [← he1]
        exact pe
      · intro rc hrc
        rw [q1]
        have := pc rc (by
          rw [he1, hco, hro, he2]
          exact hrc)
        rw [← he1]
        exact this
    · have he1 : e.1 ≠ cid := by
        intro hc
        apply hnotin
        rw [hc]
        exact List.mem_map_of_mem Prod.fst htail
      obtain ⟨p1, p2, p3, p4⟩ := repairStageStep_ne run_id env mandate st e
        cid he1
      simp only [List.foldl_cons]
      exact ih (repairStageStep run_id env mandate st e) candidate hnd_rest
        htail co ro (by rw [p2]; exact hco) (by rw [p3]; exact hro) hfail

/-- C10: the repair executor returns a candidate in every branch, so for
every candidate whose recorded compliance or red-team report failed the
orchestrator unconditionally records the returned candidate and emits
CANDIDATE_REPAIRED — and on the concrete run whose only candidate fails
a rule no mechanical repair handles, CANDIDATE_REPAIRED is emitted while
the recorded compliance report still fails, so observing the event does
not imply the candidate now passes both checks. -/
theorem c10_candidate_repaired_unconditional :
    (∀ (run_id : String) (env : RepairEnv)
      (candidate : PortfolioCandidate) (comp : Option ComplianceReport)
      (red : Option RedTeamReport) (mandate : MandateDSL) (n : Nat),
      (repairLoopExecute run_id env candidate comp red mandate
        n).1.candidate.isSome = true) ∧
    (∀ (run_id : String) (env : String → RepairEnv) (mandate : MandateDSL)
      (cands : List (String × PortfolioCandidate))
      (comps : List (String × ComplianceReport))
      (reds : List (String × RedTeamReport)) (cid : String)
      (candidate : PortfolioCandidate),
      (cands.map Prod.fst).Nodup →
      (cid, candidate) ∈ cands →
      reportsFailing (alistLookup comps cid) (alistLookup reds cid) =
        true →
      (EventKind.candidate_repaired, some cid) ∈
          (workflowRepairStage run_id env mandate cands comps reds).events ∧
      (∀ rc, (repairLoopExecute run_id (env cid) candidate
          (alistLookup comps cid) (alistLookup reds cid) mandate
            3).1.candidate = some rc →
        alistLookup (workflowRepairStage run_id env mandate cands comps
          reds).candidates cid = some rc)) ∧
    ((workflowRepairStage "run-1" (fun _ => testEnv) mTest [("D", candD)]
        [("D", compD)] []).events =
      [(EventKind.repair_iteration, some "D"),
        (EventKind.candidate_repaired, some "D")] ∧
    (alistLookup (workflowRepairStage "run-1" (fun _ => testEnv) mTest
        [("D", candD)] [("D", compD)] []).compliance_reports "D").map
      (·.passed) = some false) := by
  refine ⟨repairLoopExecute_candidate_isSome, ?_, by decide, by decide⟩
  intro run_id env mandate cands comps reds cid candidate hnd hmem hfail
  exact repairStage_fold_process run_id env mandate cid cands
    { candidates := cands, compliance_reports := comps,
      redteam_reports := reds, events := [] } candidate hnd hmem
    (alistLookup comps cid) (alistLookup reds cid) rfl rfl hfail

/-- Witness for the unconditional-recording theorem at the concrete
one-candidate failing run. -/
theorem c10_repaired_witness :
    ((([("D", candD)] : List (String × PortfolioCandidate)).map
        Prod.fst).Nodup ∧
      ("D", candD) ∈ ([("D", candD)] : List (String × PortfolioCandidate)) ∧
      reportsFailing (alistLookup [("D", compD)] "D")
        (alistLookup ([] : List (String × RedTeamReport)) "D") = true) ∧
    ((EventKind.candidate_repaired, some "D") ∈
        (workflowRepairStage "run-1" (fun _ => testEnv) mTest [("D", candD)]
          [("D", compD)] []).events ∧
      (∀ rc, (repairLoopExecute "run-1" ((fun _ => testEnv) "D") candD
          (alistLookup [("D", compD)] "D")
          (alistLookup ([] : List (String × RedTeamReport)) "D") mTest
            3).1.candidate = some rc →
        alistLookup (workflowRepairStage "run-1" (fun _ => testEnv) mTest
          [("D", candD)] [("D", compD)] []).candidates "D" = some rc)) :=
  ⟨⟨by decide, by decide, by decide⟩,
    c10_candidate_repaired_unconditional.2.1 "run-1" (fun _ => testEnv)
      mTest [("D", candD)] [("D", compD)] [] "D" candD (by decide)
      (by decide) (by decide)⟩

end ICAutopilot
